import Mathlib

/-!
Verification of the `hashtable` package (separate-chaining hash table with
automatic doubling) and its iterator protocol.

Modelling conventions for the shallow embedding:

* Machine integers (`uint32` counters and capacity, `uint64` hashes) are
  modelled as `Nat` with explicit reduction modulo `2^32` / `2^64` exactly at
  the operations where the Go code performs 32/64-bit arithmetic.
* A bucket's singly linked `Node` chain (`next` pointers) is modelled as a
  `List (Node K V)` in chain order; the bucket array is a
  `List (List (Node K V))`, where `[]` models a `nil` bucket slot.
* `panic` (Go run-time aborts: the `key not found` panic in `Get`, and
  out-of-range slice accesses) is modelled by `Option`/`none`: a function
  returns `none` exactly when the Go original does not return normally.
* The shared FNV-64 hash accumulator (`hasher` field, reset after each call
  via `defer h.hasher.Reset()`) is modelled as an explicit `hasherState`
  field threaded through `generateHash`.
* The `gob` serialization of keys performed by `generateHash` is external
  library code; it is modelled as a parameter `encode : K → List Nat`
  producing the key's byte representation (each byte reduced mod 256 where
  it is consumed, as Go's `Write` consumes `uint8`s).
* The mutually recursive `Insert`/`insertNode`/`Resize` cluster is embedded
  with an explicit fuel parameter; `none` also results from fuel exhaustion,
  so every theorem is stated for executions that complete (`= some t`),
  which covers every terminating run of the Go original.
-/

namespace GoHashTable

/-- FNV-64 offset basis, the initial state of Go's `fnv.New64()` hasher. -/
def fnvOffset : Nat := 14695981039346656037

/-- FNV-64 prime used by Go's `hash/fnv` 64-bit hasher. -/
def fnvPrime : Nat := 1099511628211

/-- One step of Go's FNV-1 64-bit `Write` loop: `hash *= prime; hash ^= c`
for one byte `c` (bytes are `uint8`, hence the mod 256). -/
def fnvStep (h b : Nat) : Nat := (h * fnvPrime % 2 ^ 64) ^^^ (b % 256)

/-- Go's `hasher.Write(bytes)`: fold the FNV-1 step over the byte list,
starting from the current accumulator state. -/
def fnvWrite (s : Nat) (bs : List Nat) : Nat := bs.foldl fnvStep s

/-- The hash that `generateHash` computes for a key when the accumulator is
in its reset state (which it is in every reachable table state). -/
def hashOf {K : Type} (encode : K → List Nat) (key : K) : Nat :=
  fnvWrite fnvOffset (encode key)

/-- Go `Entry[K, V]`: one key/value pair. -/
structure Entry (K V : Type) where
  Key : K
  Value : V
deriving Repr, DecidableEq

/-- Go `Node[K, V]`: an entry plus the precomputed 64-bit hash of its key.
The `next` pointer is modelled by the position in the bucket's chain list. -/
structure Node (K V : Type) where
  entry : Entry K V
  hash : Nat
deriving Repr, DecidableEq

/-- Go `HashTable[K, V]`.  `buckets` has one chain list per bucket slot
(`[]` = `nil` slot); `hasherState` is the shared FNV accumulator. -/
structure HashTable (K V : Type) where
  actualBucketLength : Nat
  actualBucketSize : Nat
  sizeItems : Nat
  buckets : List (List (Node K V))
  hasherState : Nat
deriving Repr

variable {K V : Type}

/-- Go `NewHashTable`: capacity 2, zero counters, fresh FNV hasher. -/
def NewHashTable : HashTable K V :=
  { actualBucketLength := 2
    actualBucketSize := 0
    sizeItems := 0
    buckets := List.replicate 2 []
    hasherState := fnvOffset }

/-- Go `isFull`: `actualBucketSize > actualBucketLength >> 1`. -/
def isFull (t : HashTable K V) : Bool :=
  t.actualBucketLength / 2 < t.actualBucketSize

/-- Go `resetBucket`: install a fresh bucket array of the given length and
zero both counters. -/
def resetBucket (t : HashTable K V) (newLength : Nat) : HashTable K V :=
  { t with
    actualBucketLength := newLength
    buckets := List.replicate newLength []
    actualBucketSize := 0
    sizeItems := 0 }

/-- Go `generateHash`: write the key's encoded bytes into the shared FNV
accumulator, read `Sum64`, then (deferred) `Reset` the accumulator. -/
def generateHash (encode : K → List Nat) (t : HashTable K V) (key : K) :
    Nat × HashTable K V :=
  (fnvWrite t.hasherState (encode key), { t with hasherState := fnvOffset })

/-- Go `generateIndex`: `uint32(hash % uint64(actualBucketLength))`. -/
def generateIndex (t : HashTable K V) (hash : Nat) : Nat :=
  hash % t.actualBucketLength % 2 ^ 32

/-- Go `Hash`: hash then index; the shared accumulator ends up reset. -/
def HashF (encode : K → List Nat) (t : HashTable K V) (key : K) :
    (Nat × Nat) × HashTable K V :=
  let r := generateHash encode t key
  ((r.1, generateIndex r.2 r.1), r.2)

/-- Go `HandleColision` on one chain: walk the chain; on the first node whose
stored hash equals the new node's hash, overwrite that node's entry in place
(keeping its hash field) and stop; otherwise append the new node at the tail.
Returns the updated chain and whether the node was appended (`true`) rather
than overwritten (`false`); in the Go code an append also runs
`sizeItems++`. -/
def HandleColision (newNode : Node K V) :
    List (Node K V) → List (Node K V) × Bool
  | [] => ([newNode], true)
  | c :: rest =>
    if c.hash = newNode.hash then
      ({ c with entry := newNode.entry } :: rest, false)
    else
      let r := HandleColision newNode rest
      (c :: r.1, r.2)

/-- The non-resizing part of Go `insertNode`: place the node into its bucket
slot (filling an empty slot, or running `HandleColision`), updating the
`uint32` counters.  `none` models the panic on an out-of-range slot. -/
def insertBaseF (t : HashTable K V) (newNode : Node K V) (index : Nat) :
    Option (HashTable K V) :=
  match t.buckets[index]? with
  | none => none
  | some [] =>
    some { t with
      buckets := t.buckets.set index [newNode]
      actualBucketSize := (t.actualBucketSize + 1) % 2 ^ 32
      sizeItems := (t.sizeItems + 1) % 2 ^ 32 }
  | some (c :: rest) =>
    let r := HandleColision newNode (c :: rest)
    some { t with
      buckets := t.buckets.set index r.1
      sizeItems := if r.2 then (t.sizeItems + 1) % 2 ^ 32 else t.sizeItems }

mutual

/-- Go `Insert` with fuel: hash the key, build the node, delegate to
`insertNodeF`.  Every recursive call of the cluster decrements the fuel, so
`none` is returned on fuel exhaustion; with enough fuel the result is the
Go computation's. -/
def insertF (encode : K → List Nat) :
    Nat → HashTable K V → K → V → Option (HashTable K V)
  | 0, _, _, _ => none
  | fuel + 1, t, key, value =>
    let r := HashF encode t key
    insertNodeF encode fuel r.2 { entry := { Key := key, Value := value }, hash := r.1.1 } r.1.2

/-- Go `insertNode` with fuel: do the base insertion, then trigger `Resize`
when `isFull`. -/
def insertNodeF (encode : K → List Nat) :
    Nat → HashTable K V → Node K V → Nat → Option (HashTable K V)
  | 0, _, _, _ => none
  | fuel + 1, t, newNode, index =>
    match insertBaseF t newNode index with
    | none => none
    | some t1 => if isFull t1 then resizeF encode fuel t1 else some t1

/-- Go `Resize` with fuel: snapshot the chains, reset to double capacity
(`uint32` shift), and re-insert every node through the normal `Insert`
path. -/
def resizeF (encode : K → List Nat) :
    Nat → HashTable K V → Option (HashTable K V)
  | 0, _ => none
  | fuel + 1, t =>
    reinsertChainsF encode fuel
      (resetBucket t (t.actualBucketLength * 2 % 2 ^ 32)) t.buckets

/-- The outer re-insertion loop of Go `Resize` over the snapshot's bucket
slots (a `nil` slot, i.e. `[]`, is skipped). -/
def reinsertChainsF (encode : K → List Nat) :
    Nat → HashTable K V → List (List (Node K V)) → Option (HashTable K V)
  | _, t, [] => some t
  | 0, _, _ :: _ => none
  | fuel + 1, t, chain :: rest =>
    match reinsertChainF encode fuel t chain with
    | none => none
    | some t1 => reinsertChainsF encode fuel t1 rest

/-- The inner re-insertion loop of Go `Resize` along one snapshot chain. -/
def reinsertChainF (encode : K → List Nat) :
    Nat → HashTable K V → List (Node K V) → Option (HashTable K V)
  | _, t, [] => some t
  | 0, _, _ :: _ => none
  | fuel + 1, t, node :: rest =>
    match insertF encode fuel t node.entry.Key node.entry.Value with
    | none => none
    | some t1 => reinsertChainF encode fuel t1 rest

end

/-- Go `Get`: hash the key, walk the chain at the computed index, return the
value of the first node whose stored hash matches.  `none` models both the
`key not found` panic and the (unre(achable in well-formed states)
out-of-range panic. -/
def getF (encode : K → List Nat) (t : HashTable K V) (key : K) : Option V :=
  let r := HashF encode t key
  match r.2.buckets[r.1.2]? with
  | none => none
  | some chain => (chain.find? fun nd => nd.hash == r.1.1).map fun nd => nd.entry.Value

/-- Go `Delete`: compute the key's index, unconditionally clear that entire
bucket slot, and decrement the `uint32` `actualBucketSize` (wrapping).
`sizeItems` is not touched.  `none` models the out-of-range panic. -/
def deleteF (encode : K → List Nat) (t : HashTable K V) (key : K) :
    Option (HashTable K V) :=
  let r := HashF encode t key
  if r.1.2 < r.2.buckets.length then
    some { r.2 with
      buckets := r.2.buckets.set r.1.2 []
      actualBucketSize := (r.2.actualBucketSize + (2 ^ 32 - 1)) % 2 ^ 32 }
  else none

/-- Go `Size`: returns `sizeItems`. -/
def Size (t : HashTable K V) : Nat := t.sizeItems

/-- The entries yielded for one bucket chain by the `Iter` goroutine: the
head node's entry, then every node reachable via `next`, in chain order. -/
def iterChain : List (Node K V) → List (Entry K V)
  | [] => []
  | nd :: rest => nd.entry :: iterChain rest

/-- The full yield sequence of Go `Iter`: bucket slots in array order
(`nil` slots yield nothing), each chain in chain order. -/
def iterBuckets : List (List (Node K V)) → List (Entry K V)
  | [] => []
  | c :: cs => iterChain c ++ iterBuckets cs

/-- Go `Iter`, as the finite list of entries sent over the channel before it
is closed. -/
def Iter (t : HashTable K V) : List (Entry K V) := iterBuckets t.buckets

/-- All nodes currently stored in the table, in bucket-array then chain
order. -/
def allNodes (t : HashTable K V) : List (Node K V) := t.buckets.flatten

/-- First-match lookup by stored hash over the whole table, the abstraction
of `Get`'s chain walk. -/
def findNode (t : HashTable K V) (h : Nat) : Option (Node K V) :=
  (allNodes t).find? fun nd => nd.hash == h

end GoHashTable

namespace GoHashTable

variable {K V : Type}

/-- Well-formedness invariant of reachable table states: the hasher is reset,
the bucket array matches the capacity (a positive power of two fitting in
`uint32`), every node sits in the bucket determined by its stored hash, no
chain holds two nodes of equal hash, and every stored hash is the hash of the
stored key. -/
structure WF (encode : K → List Nat) (t : HashTable K V) : Prop where
  hb : t.hasherState = fnvOffset
  len : t.buckets.length = t.actualBucketLength
  pos : 0 < t.actualBucketLength
  cap_le : t.actualBucketLength ≤ 2 ^ 32
  cap_pow : ∃ k, t.actualBucketLength = 2 ^ k
  place : ∀ (i : Nat) (c : List (Node K V)), t.buckets[i]? = some c →
    ∀ nd ∈ c, nd.hash % t.actualBucketLength = i
  chain_nodup : ∀ (i : Nat) (c : List (Node K V)), t.buckets[i]? = some c →
    (c.map Node.hash).Nodup
  hkey : ∀ (i : Nat) (c : List (Node K V)), t.buckets[i]? = some c →
    ∀ nd ∈ c, nd.hash = hashOf encode nd.entry.Key

/-- Invariant 4 of the spec, stated at `uint32` precision: `sizeItems` equals
the number of reachable nodes reduced modulo `2^32`. -/
def CountOK (t : HashTable K V) : Prop :=
  t.sizeItems = (allNodes t).length % 2 ^ 32

/-- Everything one completed insertion guarantees: invariant preservation,
the update rule for hash lookup, node-count bookkeeping, preservation of the
item-count invariant, and capacity growth by a power of two. -/
structure InsertOutcome (encode : K → List Nat) (t : HashTable K V) (n : Node K V)
    (t' : HashTable K V) : Prop where
  wf : WF encode t'
  upd : ∀ h, findNode t' h = if h = n.hash then some n else findNode t h
  count : (allNodes t').length =
    (allNodes t).length + (if (findNode t n.hash).isSome then 0 else 1)
  countok : CountOK t → CountOK t'
  grow : ∃ m, t'.actualBucketLength = 2 ^ m * t.actualBucketLength

/-- The induction statement: every completed `Insert` at the given fuel
satisfies the insertion outcome specification. -/
def InsP (encode : K → List Nat) (fuel : Nat) : Prop :=
  ∀ (t : HashTable K V) (k : K) (v : V) (t' : HashTable K V), WF encode t →
    insertF encode fuel t k v = some t' →
    InsertOutcome encode t { entry := { Key := k, Value := v }, hash := hashOf encode k } t'

/-- Table states reachable through the public constructor and mutators. -/
inductive Reachable (encode : K → List Nat) : HashTable K V → Prop
  | new : Reachable encode NewHashTable
  | insert (t t' : HashTable K V) (fuel : Nat) (k : K) (v : V) :
      Reachable encode t → insertF encode fuel t k v = some t' → Reachable encode t'
  | delete (t t' : HashTable K V) (k : K) :
      Reachable encode t → deleteF encode t k = some t' → Reachable encode t'

/-- Modelled from the spec: the `gob` serialization used by `generateHash`
is external library code; the spec requires only a canonical, deterministic
encoding that is injective enough for the key type in use.  For `Nat` keys
(used to instantiate witnesses) we take the low byte of the key. -/
def encodeNat : Nat → List Nat := fun n => [n % 256]

/-- Modelled from the spec: the `gob` serialization of `string` keys,
replaced by the string's code points (equal to its UTF-8 bytes for the ASCII
keys of the concrete scenarios), a canonical deterministic injective
encoding. -/
def encodeStr : String → List Nat := fun s => s.toList.map Char.toNat

/-- The insertion loop of the concrete test scenarios: insert the pairs in
order through the normal `Insert` path. -/
def insertAllF (encode : K → List Nat) (fuel : Nat) :
    HashTable K V → List (K × V) → Option (HashTable K V)
  | t, [] => some t
  | t, (k, v) :: rest =>
    match insertF encode fuel t k v with
    | none => none
    | some t1 => insertAllF encode fuel t1 rest

/-- The 20 keys `"0"` … `"19"` of the growth scenario, paired with the test
value. -/
def pairs20 : List (String × String) :=
  [("0", "bar"), ("1", "bar"), ("2", "bar"), ("3", "bar"), ("4", "bar"),
   ("5", "bar"), ("6", "bar"), ("7", "bar"), ("8", "bar"), ("9", "bar"),
   ("10", "bar"), ("11", "bar"), ("12", "bar"), ("13", "bar"), ("14", "bar"),
   ("15", "bar"), ("16", "bar"), ("17", "bar"), ("18", "bar"), ("19", "bar")]

/-- Intermediate states of the 20-key growth scenario: the table after
each successive insert (computed values, pinned as literals so each step of
the scenario evaluates independently). -/
def step1 : HashTable String String :=
  ⟨2, 1, 1,
  [[],
   [{ entry := { Key := "0", Value := "bar" }, hash := 12638153115695167471 }]],
  fnvOffset⟩

def step2 : HashTable String String :=
  ⟨4, 2, 2,
  [[],
   [],
   [{ entry := { Key := "1", Value := "bar" }, hash := 12638153115695167470 }],
   [{ entry := { Key := "0", Value := "bar" }, hash := 12638153115695167471 }]],
  fnvOffset⟩

def step3 : HashTable String String :=
  ⟨8, 3, 3,
  [[],
   [],
   [],
   [],
   [],
   [{ entry := { Key := "2", Value := "bar" }, hash := 12638153115695167469 }],
   [{ entry := { Key := "1", Value := "bar" }, hash := 12638153115695167470 }],
   [{ entry := { Key := "0", Value := "bar" }, hash := 12638153115695167471 }]],
  fnvOffset⟩

def step4 : HashTable String String :=
  ⟨8, 4, 4,
  [[],
   [],
   [],
   [],
   [{ entry := { Key := "3", Value := "bar" }, hash := 12638153115695167468 }],
   [{ entry := { Key := "2", Value := "bar" }, hash := 12638153115695167469 }],
   [{ entry := { Key := "1", Value := "bar" }, hash := 12638153115695167470 }],
   [{ entry := { Key := "0", Value := "bar" }, hash := 12638153115695167471 }]],
  fnvOffset⟩

def step5 : HashTable String String :=
  ⟨16, 5, 5,
  [[],
   [],
   [],
   [],
   [],
   [],
   [],
   [],
   [],
   [],
   [],
   [{ entry := { Key := "4", Value := "bar" }, hash := 12638153115695167467 }],
   [{ entry := { Key := "3", Value := "bar" }, hash := 12638153115695167468 }],
   [{ entry := { Key := "2", Value := "bar" }, hash := 12638153115695167469 }],
   [{ entry := { Key := "1", Value := "bar" }, hash := 12638153115695167470 }],
   [{ entry := { Key := "0", Value := "bar" }, hash := 12638153115695167471 }]],
  fnvOffset⟩

def step6 : HashTable String String :=
  ⟨16, 6, 6,
  [[],
   [],
   [],
   [],
   [],
   [],
   [],
   [],
   [],
   [],
   [{ entry := { Key := "5", Value := "bar" }, hash := 12638153115695167466 }],
   [{ entry := { Key := "4", Value := "bar" }, hash := 12638153115695167467 }],
   [{ entry := { Key := "3", Value := "bar" }, hash := 12638153115695167468 }],
   [{ entry := { Key := "2", Value := "bar" }, hash := 12638153115695167469 }],
   [{ entry := { Key := "1", Value := "bar" }, hash := 12638153115695167470 }],
   [{ entry := { Key := "0", Value := "bar" }, hash := 12638153115695167471 }]],
  fnvOffset⟩

def step7 : HashTable String String :=
  ⟨16, 7, 7,
  [[],
   [],
   [],
   [],
   [],
   [],
   [],
   [],
   [],
   [{ entry := { Key := "6", Value := "bar" }, hash := 12638153115695167465 }],
   [{ entry := { Key := "5", Value := "bar" }, hash := 12638153115695167466 }],
   [{ entry := { Key := "4", Value := "bar" }, hash := 12638153115695167467 }],
   [{ entry := { Key := "3", Value := "bar" }, hash := 12638153115695167468 }],
   [{ entry := { Key := "2", Value := "bar" }, hash := 12638153115695167469 }],
   [{ entry := { Key := "1", Value := "bar" }, hash := 12638153115695167470 }],
   [{ entry := { Key := "0", Value := "bar" }, hash := 12638153115695167471 }]],
  fnvOffset⟩

def step8 : HashTable String String :=
  ⟨16, 8, 8,
  [[],
   [],
   [],
   [],
   [],
   [],
   [],
   [],
   [{ entry := { Key := "7", Value := "bar" }, hash := 12638153115695167464 }],
   [{ entry := { Key := "6", Value := "bar" }, hash := 12638153115695167465 }],
   [{ entry := { Key := "5", Value := "bar" }, hash := 12638153115695167466 }],
   [{ entry := { Key := "4", Value := "bar" }, hash := 12638153115695167467 }],
   [{ entry := { Key := "3", Value := "bar" }, hash := 12638153115695167468 }],
   [{ entry := { Key := "2", Value := "bar" }, hash := 12638153115695167469 }],
   [{ entry := { Key := "1", Value := "bar" }, hash := 12638153115695167470 }],
   [{ entry := { Key := "0", Value := "bar" }, hash := 12638153115695167471 }]],
  fnvOffset⟩

def step9 : HashTable String String :=
  ⟨32, 9, 9,
  [[],
   [],
   [],
   [],
   [],
   [],
   [],
   [{ entry := { Key := "8", Value := "bar" }, hash := 12638153115695167463 }],
   [{ entry := { Key := "7", Value := "bar" }, hash := 12638153115695167464 }],
   [{ entry := { Key := "6", Value := "bar" }, hash := 12638153115695167465 }],
   [{ entry := { Key := "5", Value := "bar" }, hash := 12638153115695167466 }],
   [{ entry := { Key := "4", Value := "bar" }, hash := 12638153115695167467 }],
   [{ entry := { Key := "3", Value := "bar" }, hash := 12638153115695167468 }],
   [{ entry := { Key := "2", Value := "bar" }, hash := 12638153115695167469 }],
   [{ entry := { Key := "1", Value := "bar" }, hash := 12638153115695167470 }],
   [{ entry := { Key := "0", Value := "bar" }, hash := 12638153115695167471 }],
   [],
   [],
   [],
   [],
   [],
   [],
   [],
   [],
   [],
   [],
   [],
   [],
   [],
   [],
   [],
   []],
  fnvOffset⟩

def step10 : HashTable String String :=
  ⟨32, 10, 10,
  [[],
   [],
   [],
   [],
   [],
   [],
   [{ entry := { Key := "9", Value := "bar" }, hash := 12638153115695167462 }],
   [{ entry := { Key := "8", Value := "bar" }, hash := 12638153115695167463 }],
   [{ entry := { Key := "7", Value := "bar" }, hash := 12638153115695167464 }],
   [{ entry := { Key := "6", Value := "bar" }, hash := 12638153115695167465 }],
   [{ entry := { Key := "5", Value := "bar" }, hash := 12638153115695167466 }],
   [{ entry := { Key := "4", Value := "bar" }, hash := 12638153115695167467 }],
   [{ entry := { Key := "3", Value := "bar" }, hash := 12638153115695167468 }],
   [{ entry := { Key := "2", Value := "bar" }, hash := 12638153115695167469 }],
   [{ entry := { Key := "1", Value := "bar" }, hash := 12638153115695167470 }],
   [{ entry := { Key := "0", Value := "bar" }, hash := 12638153115695167471 }],
   [],
   [],
   [],
   [],
   [],
   [],
   [],
   [],
   [],
   [],
   [],
   [],
   [],
   [],
   [],
   []],
  fnvOffset⟩

def step11 : HashTable String String :=
  ⟨32, 11, 11,
  [[],
   [],
   [],
   [],
   [],
   [],
   [{ entry := { Key := "9", Value := "bar" }, hash := 12638153115695167462 }],
   [{ entry := { Key := "8", Value := "bar" }, hash := 12638153115695167463 }],
   [{ entry := { Key := "7", Value := "bar" }, hash := 12638153115695167464 }],
   [{ entry := { Key := "6", Value := "bar" }, hash := 12638153115695167465 }],
   [{ entry := { Key := "5", Value := "bar" }, hash := 12638153115695167466 }],
   [{ entry := { Key := "4", Value := "bar" }, hash := 12638153115695167467 }],
   [{ entry := { Key := "3", Value := "bar" }, hash := 12638153115695167468 }],
   [{ entry := { Key := "2", Value := "bar" }, hash := 12638153115695167469 }],
   [{ entry := { Key := "1", Value := "bar" }, hash := 12638153115695167470 }],
   [{ entry := { Key := "0", Value := "bar" }, hash := 12638153115695167471 }],
   [],
   [],
   [],
   [],
   [],
   [],
   [],
   [],
   [],
   [],
   [{ entry := { Key := "10", Value := "bar" }, hash := 590700560494856538 }],
   [],
   [],
   [],
   [],
   []],
  fnvOffset⟩

def step12 : HashTable String String :=
  ⟨32, 12, 12,
  [[],
   [],
   [],
   [],
   [],
   [],
   [{ entry := { Key := "9", Value := "bar" }, hash := 12638153115695167462 }],
   [{ entry := { Key := "8", Value := "bar" }, hash := 12638153115695167463 }],
   [{ entry := { Key := "7", Value := "bar" }, hash := 12638153115695167464 }],
   [{ entry := { Key := "6", Value := "bar" }, hash := 12638153115695167465 }],
   [{ entry := { Key := "5", Value := "bar" }, hash := 12638153115695167466 }],
   [{ entry := { Key := "4", Value := "bar" }, hash := 12638153115695167467 }],
   [{ entry := { Key := "3", Value := "bar" }, hash := 12638153115695167468 }],
   [{ entry := { Key := "2", Value := "bar" }, hash := 12638153115695167469 }],
   [{ entry := { Key := "1", Value := "bar" }, hash := 12638153115695167470 }],
   [{ entry := { Key := "0", Value := "bar" }, hash := 12638153115695167471 }],
   [],
   [],
   [],
   [],
   [],
   [],
   [],
   [],
   [],
   [],
   [{ entry := { Key := "10", Value := "bar" }, hash := 590700560494856538 }],
   [{ entry := { Key := "11", Value := "bar" }, hash := 590700560494856539 }],
   [],
   [],
   [],
   []],
  fnvOffset⟩

def step13 : HashTable String String :=
  ⟨32, 13, 13,
  [[],
   [],
   [],
   [],
   [],
   [],
   [{ entry := { Key := "9", Value := "bar" }, hash := 12638153115695167462 }],
   [{ entry := { Key := "8", Value := "bar" }, hash := 12638153115695167463 }],
   [{ entry := { Key := "7", Value := "bar" }, hash := 12638153115695167464 }],
   [{ entry := { Key := "6", Value := "bar" }, hash := 12638153115695167465 }],
   [{ entry := { Key := "5", Value := "bar" }, hash := 12638153115695167466 }],
   [{ entry := { Key := "4", Value := "bar" }, hash := 12638153115695167467 }],
   [{ entry := { Key := "3", Value := "bar" }, hash := 12638153115695167468 }],
   [{ entry := { Key := "2", Value := "bar" }, hash := 12638153115695167469 }],
   [{ entry := { Key := "1", Value := "bar" }, hash := 12638153115695167470 }],
   [{ entry := { Key := "0", Value := "bar" }, hash := 12638153115695167471 }],
   [],
   [],
   [],
   [],
   [],
   [],
   [],
   [],
   [{ entry := { Key := "12", Value := "bar" }, hash := 590700560494856536 }],
   [],
   [{ entry := { Key := "10", Value := "bar" }, hash := 590700560494856538 }],
   [{ entry := { Key := "11", Value := "bar" }, hash := 590700560494856539 }],
   [],
   [],
   [],
   []],
  fnvOffset⟩

def step14 : HashTable String String :=
  ⟨32, 14, 14,
  [[],
   [],
   [],
   [],
   [],
   [],
   [{ entry := { Key := "9", Value := "bar" }, hash := 12638153115695167462 }],
   [{ entry := { Key := "8", Value := "bar" }, hash := 12638153115695167463 }],
   [{ entry := { Key := "7", Value := "bar" }, hash := 12638153115695167464 }],
   [{ entry := { Key := "6", Value := "bar" }, hash := 12638153115695167465 }],
   [{ entry := { Key := "5", Value := "bar" }, hash := 12638153115695167466 }],
   [{ entry := { Key := "4", Value := "bar" }, hash := 12638153115695167467 }],
   [{ entry := { Key := "3", Value := "bar" }, hash := 12638153115695167468 }],
   [{ entry := { Key := "2", Value := "bar" }, hash := 12638153115695167469 }],
   [{ entry := { Key := "1", Value := "bar" }, hash := 12638153115695167470 }],
   [{ entry := { Key := "0", Value := "bar" }, hash := 12638153115695167471 }],
   [],
   [],
   [],
   [],
   [],
   [],
   [],
   [],
   [{ entry := { Key := "12", Value := "bar" }, hash := 590700560494856536 }],
   [{ entry := { Key := "13", Value := "bar" }, hash := 590700560494856537 }],
   [{ entry := { Key := "10", Value := "bar" }, hash := 590700560494856538 }],
   [{ entry := { Key := "11", Value := "bar" }, hash := 590700560494856539 }],
   [],
   [],
   [],
   []],
  fnvOffset⟩

def step15 : HashTable String String :=
  ⟨32, 15, 15,
  [[],
   [],
   [],
   [],
   [],
   [],
   [{ entry := { Key := "9", Value := "bar" }, hash := 12638153115695167462 }],
   [{ entry := { Key := "8", Value := "bar" }, hash := 12638153115695167463 }],
   [{ entry := { Key := "7", Value := "bar" }, hash := 12638153115695167464 }],
   [{ entry := { Key := "6", Value := "bar" }, hash := 12638153115695167465 }],
   [{ entry := { Key := "5", Value := "bar" }, hash := 12638153115695167466 }],
   [{ entry := { Key := "4", Value := "bar" }, hash := 12638153115695167467 }],
   [{ entry := { Key := "3", Value := "bar" }, hash := 12638153115695167468 }],
   [{ entry := { Key := "2", Value := "bar" }, hash := 12638153115695167469 }],
   [{ entry := { Key := "1", Value := "bar" }, hash := 12638153115695167470 }],
   [{ entry := { Key := "0", Value := "bar" }, hash := 12638153115695167471 }],
   [],
   [],
   [],
   [],
   [],
   [],
   [],
   [],
   [{ entry := { Key := "12", Value := "bar" }, hash := 590700560494856536 }],
   [{ entry := { Key := "13", Value := "bar" }, hash := 590700560494856537 }],
   [{ entry := { Key := "10", Value := "bar" }, hash := 590700560494856538 }],
   [{ entry := { Key := "11", Value := "bar" }, hash := 590700560494856539 }],
   [],
   [],
   [{ entry := { Key := "14", Value := "bar" }, hash := 590700560494856542 }],
   []],
  fnvOffset⟩

def step16 : HashTable String String :=
  ⟨32, 16, 16,
  [[],
   [],
   [],
   [],
   [],
   [],
   [{ entry := { Key := "9", Value := "bar" }, hash := 12638153115695167462 }],
   [{ entry := { Key := "8", Value := "bar" }, hash := 12638153115695167463 }],
   [{ entry := { Key := "7", Value := "bar" }, hash := 12638153115695167464 }],
   [{ entry := { Key := "6", Value := "bar" }, hash := 12638153115695167465 }],
   [{ entry := { Key := "5", Value := "bar" }, hash := 12638153115695167466 }],
   [{ entry := { Key := "4", Value := "bar" }, hash := 12638153115695167467 }],
   [{ entry := { Key := "3", Value := "bar" }, hash := 12638153115695167468 }],
   [{ entry := { Key := "2", Value := "bar" }, hash := 12638153115695167469 }],
   [{ entry := { Key := "1", Value := "bar" }, hash := 12638153115695167470 }],
   [{ entry := { Key := "0", Value := "bar" }, hash := 12638153115695167471 }],
   [],
   [],
   [],
   [],
   [],
   [],
   [],
   [],
   [{ entry := { Key := "12", Value := "bar" }, hash := 590700560494856536 }],
   [{ entry := { Key := "13", Value := "bar" }, hash := 590700560494856537 }],
   [{ entry := { Key := "10", Value := "bar" }, hash := 590700560494856538 }],
   [{ entry := { Key := "11", Value := "bar" }, hash := 590700560494856539 }],
   [],
   [],
   [{ entry := { Key := "14", Value := "bar" }, hash := 590700560494856542 }],
   [{ entry := { Key := "15", Value := "bar" }, hash := 590700560494856543 }]],
  fnvOffset⟩

def step17 : HashTable String String :=
  ⟨64, 17, 17,
  [[],
   [],
   [],
   [],
   [],
   [],
   [],
   [],
   [],
   [],
   [],
   [],
   [],
   [],
   [],
   [],
   [],
   [],
   [],
   [],
   [],
   [],
   [],
   [],
   [{ entry := { Key := "12", Value := "bar" }, hash := 590700560494856536 }],
   [{ entry := { Key := "13", Value := "bar" }, hash := 590700560494856537 }],
   [{ entry := { Key := "10", Value := "bar" }, hash := 590700560494856538 }],
   [{ entry := { Key := "11", Value := "bar" }, hash := 590700560494856539 }],
   [{ entry := { Key := "16", Value := "bar" }, hash := 590700560494856540 }],
   [],
   [{ entry := { Key := "14", Value := "bar" }, hash := 590700560494856542 }],
   [{ entry := { Key := "15", Value := "bar" }, hash := 590700560494856543 }],
   [],
   [],
   [],
   [],
   [],
   [],
   [{ entry := { Key := "9", Value := "bar" }, hash := 12638153115695167462 }],
   [{ entry := { Key := "8", Value := "bar" }, hash := 12638153115695167463 }],
   [{ entry := { Key := "7", Value := "bar" }, hash := 12638153115695167464 }],
   [{ entry := { Key := "6", Value := "bar" }, hash := 12638153115695167465 }],
   [{ entry := { Key := "5", Value := "bar" }, hash := 12638153115695167466 }],
   [{ entry := { Key := "4", Value := "bar" }, hash := 12638153115695167467 }],
   [{ entry := { Key := "3", Value := "bar" }, hash := 12638153115695167468 }],
   [{ entry := { Key := "2", Value := "bar" }, hash := 12638153115695167469 }],
   [{ entry := { Key := "1", Value := "bar" }, hash := 12638153115695167470 }],
   [{ entry := { Key := "0", Value := "bar" }, hash := 12638153115695167471 }],
   [],
   [],
   [],
   [],
   [],
   [],
   [],
   [],
   [],
   [],
   [],
   [],
   [],
   [],
   [],
   []],
  fnvOffset⟩

def step18 : HashTable String String :=
  ⟨64, 18, 18,
  [[],
   [],
   [],
   [],
   [],
   [],
   [],
   [],
   [],
   [],
   [],
   [],
   [],
   [],
   [],
   [],
   [],
   [],
   [],
   [],
   [],
   [],
   [],
   [],
   [{ entry := { Key := "12", Value := "bar" }, hash := 590700560494856536 }],
   [{ entry := { Key := "13", Value := "bar" }, hash := 590700560494856537 }],
   [{ entry := { Key := "10", Value := "bar" }, hash := 590700560494856538 }],
   [{ entry := { Key := "11", Value := "bar" }, hash := 590700560494856539 }],
   [{ entry := { Key := "16", Value := "bar" }, hash := 590700560494856540 }],
   [{ entry := { Key := "17", Value := "bar" }, hash := 590700560494856541 }],
   [{ entry := { Key := "14", Value := "bar" }, hash := 590700560494856542 }],
   [{ entry := { Key := "15", Value := "bar" }, hash := 590700560494856543 }],
   [],
   [],
   [],
   [],
   [],
   [],
   [{ entry := { Key := "9", Value := "bar" }, hash := 12638153115695167462 }],
   [{ entry := { Key := "8", Value := "bar" }, hash := 12638153115695167463 }],
   [{ entry := { Key := "7", Value := "bar" }, hash := 12638153115695167464 }],
   [{ entry := { Key := "6", Value := "bar" }, hash := 12638153115695167465 }],
   [{ entry := { Key := "5", Value := "bar" }, hash := 12638153115695167466 }],
   [{ entry := { Key := "4", Value := "bar" }, hash := 12638153115695167467 }],
   [{ entry := { Key := "3", Value := "bar" }, hash := 12638153115695167468 }],
   [{ entry := { Key := "2", Value := "bar" }, hash := 12638153115695167469 }],
   [{ entry := { Key := "1", Value := "bar" }, hash := 12638153115695167470 }],
   [{ entry := { Key := "0", Value := "bar" }, hash := 12638153115695167471 }],
   [],
   [],
   [],
   [],
   [],
   [],
   [],
   [],
   [],
   [],
   [],
   [],
   [],
   [],
   [],
   []],
  fnvOffset⟩

def step19 : HashTable String String :=
  ⟨64, 19, 19,
  [[],
   [],
   [],
   [],
   [],
   [],
   [],
   [],
   [],
   [],
   [],
   [],
   [],
   [],
   [],
   [],
   [],
   [],
   [{ entry := { Key := "18", Value := "bar" }, hash := 590700560494856530 }],
   [],
   [],
   [],
   [],
   [],
   [{ entry := { Key := "12", Value := "bar" }, hash := 590700560494856536 }],
   [{ entry := { Key := "13", Value := "bar" }, hash := 590700560494856537 }],
   [{ entry := { Key := "10", Value := "bar" }, hash := 590700560494856538 }],
   [{ entry := { Key := "11", Value := "bar" }, hash := 590700560494856539 }],
   [{ entry := { Key := "16", Value := "bar" }, hash := 590700560494856540 }],
   [{ entry := { Key := "17", Value := "bar" }, hash := 590700560494856541 }],
   [{ entry := { Key := "14", Value := "bar" }, hash := 590700560494856542 }],
   [{ entry := { Key := "15", Value := "bar" }, hash := 590700560494856543 }],
   [],
   [],
   [],
   [],
   [],
   [],
   [{ entry := { Key := "9", Value := "bar" }, hash := 12638153115695167462 }],
   [{ entry := { Key := "8", Value := "bar" }, hash := 12638153115695167463 }],
   [{ entry := { Key := "7", Value := "bar" }, hash := 12638153115695167464 }],
   [{ entry := { Key := "6", Value := "bar" }, hash := 12638153115695167465 }],
   [{ entry := { Key := "5", Value := "bar" }, hash := 12638153115695167466 }],
   [{ entry := { Key := "4", Value := "bar" }, hash := 12638153115695167467 }],
   [{ entry := { Key := "3", Value := "bar" }, hash := 12638153115695167468 }],
   [{ entry := { Key := "2", Value := "bar" }, hash := 12638153115695167469 }],
   [{ entry := { Key := "1", Value := "bar" }, hash := 12638153115695167470 }],
   [{ entry := { Key := "0", Value := "bar" }, hash := 12638153115695167471 }],
   [],
   [],
   [],
   [],
   [],
   [],
   [],
   [],
   [],
   [],
   [],
   [],
   [],
   [],
   [],
   []],
  fnvOffset⟩

def step20 : HashTable String String :=
  ⟨64, 20, 20,
  [[],
   [],
   [],
   [],
   [],
   [],
   [],
   [],
   [],
   [],
   [],
   [],
   [],
   [],
   [],
   [],
   [],
   [],
   [{ entry := { Key := "18", Value := "bar" }, hash := 590700560494856530 }],
   [{ entry := { Key := "19", Value := "bar" }, hash := 590700560494856531 }],
   [],
   [],
   [],
   [],
   [{ entry := { Key := "12", Value := "bar" }, hash := 590700560494856536 }],
   [{ entry := { Key := "13", Value := "bar" }, hash := 590700560494856537 }],
   [{ entry := { Key := "10", Value := "bar" }, hash := 590700560494856538 }],
   [{ entry := { Key := "11", Value := "bar" }, hash := 590700560494856539 }],
   [{ entry := { Key := "16", Value := "bar" }, hash := 590700560494856540 }],
   [{ entry := { Key := "17", Value := "bar" }, hash := 590700560494856541 }],
   [{ entry := { Key := "14", Value := "bar" }, hash := 590700560494856542 }],
   [{ entry := { Key := "15", Value := "bar" }, hash := 590700560494856543 }],
   [],
   [],
   [],
   [],
   [],
   [],
   [{ entry := { Key := "9", Value := "bar" }, hash := 12638153115695167462 }],
   [{ entry := { Key := "8", Value := "bar" }, hash := 12638153115695167463 }],
   [{ entry := { Key := "7", Value := "bar" }, hash := 12638153115695167464 }],
   [{ entry := { Key := "6", Value := "bar" }, hash := 12638153115695167465 }],
   [{ entry := { Key := "5", Value := "bar" }, hash := 12638153115695167466 }],
   [{ entry := { Key := "4", Value := "bar" }, hash := 12638153115695167467 }],
   [{ entry := { Key := "3", Value := "bar" }, hash := 12638153115695167468 }],
   [{ entry := { Key := "2", Value := "bar" }, hash := 12638153115695167469 }],
   [{ entry := { Key := "1", Value := "bar" }, hash := 12638153115695167470 }],
   [{ entry := { Key := "0", Value := "bar" }, hash := 12638153115695167471 }],
   [],
   [],
   [],
   [],
   [],
   [],
   [],
   [],
   [],
   [],
   [],
   [],
   [],
   [],
   [],
   []],
  fnvOffset⟩

/-- Intermediate tables of the five automatic resizes of the growth
scenario: `rz<i>_pre` is the pre-resize table of insert `i` (the base
insertion that trips `isFull`), `rz<i>_0` the reset doubled table, and
`rz<i>_<j>` the table after re-inserting the snapshot chains up to `j`. -/
def rz2_pre : HashTable String String :=
  ⟨2, 2, 2,
  [[{ entry := { Key := "1", Value := "bar" }, hash := 12638153115695167470 }],
   [{ entry := { Key := "0", Value := "bar" }, hash := 12638153115695167471 }]],
  fnvOffset⟩

def rz2_0 : HashTable String String :=
  ⟨4, 0, 0, List.replicate 4 [], fnvOffset⟩

def rz2_1 : HashTable String String :=
  ⟨4, 1, 1,
  [[],
   [],
   [{ entry := { Key := "1", Value := "bar" }, hash := 12638153115695167470 }],
   []],
  fnvOffset⟩

def rz3_pre : HashTable String String :=
  ⟨4, 3, 3,
  [[],
   [{ entry := { Key := "2", Value := "bar" }, hash := 12638153115695167469 }],
   [{ entry := { Key := "1", Value := "bar" }, hash := 12638153115695167470 }],
   [{ entry := { Key := "0", Value := "bar" }, hash := 12638153115695167471 }]],
  fnvOffset⟩

def rz3_0 : HashTable String String :=
  ⟨8, 0, 0, List.replicate 8 [], fnvOffset⟩

def rz3_2 : HashTable String String :=
  ⟨8, 1, 1,
  [[],
   [],
   [],
   [],
   [],
   [{ entry := { Key := "2", Value := "bar" }, hash := 12638153115695167469 }],
   [],
   []],
  fnvOffset⟩

def rz3_3 : HashTable String String :=
  ⟨8, 2, 2,
  [[],
   [],
   [],
   [],
   [],
   [{ entry := { Key := "2", Value := "bar" }, hash := 12638153115695167469 }],
   [{ entry := { Key := "1", Value := "bar" }, hash := 12638153115695167470 }],
   []],
  fnvOffset⟩

def rz5_pre : HashTable String String :=
  ⟨8, 5, 5,
  [[],
   [],
   [],
   [{ entry := { Key := "4", Value := "bar" }, hash := 12638153115695167467 }],
   [{ entry := { Key := "3", Value := "bar" }, hash := 12638153115695167468 }],
   [{ entry := { Key := "2", Value := "bar" }, hash := 12638153115695167469 }],
   [{ entry := { Key := "1", Value := "bar" }, hash := 12638153115695167470 }],
   [{ entry := { Key := "0", Value := "bar" }, hash := 12638153115695167471 }]],
  fnvOffset⟩

def rz5_0 : HashTable String String :=
  ⟨16, 0, 0, List.replicate 16 [], fnvOffset⟩

def rz5_4 : HashTable String String :=
  ⟨16, 1, 1,
  [[],
   [],
   [],
   [],
   [],
   [],
   [],
   [],
   [],
   [],
   [],
   [{ entry := { Key := "4", Value := "bar" }, hash := 12638153115695167467 }],
   [],
   [],
   [],
   []],
  fnvOffset⟩

def rz5_5 : HashTable String String :=
  ⟨16, 2, 2,
  [[],
   [],
   [],
   [],
   [],
   [],
   [],
   [],
   [],
   [],
   [],
   [{ entry := { Key := "4", Value := "bar" }, hash := 12638153115695167467 }],
   [{ entry := { Key := "3", Value := "bar" }, hash := 12638153115695167468 }],
   [],
   [],
   []],
  fnvOffset⟩

def rz5_6 : HashTable String String :=
  ⟨16, 3, 3,
  [[],
   [],
   [],
   [],
   [],
   [],
   [],
   [],
   [],
   [],
   [],
   [{ entry := { Key := "4", Value := "bar" }, hash := 12638153115695167467 }],
   [{ entry := { Key := "3", Value := "bar" }, hash := 12638153115695167468 }],
   [{ entry := { Key := "2", Value := "bar" }, hash := 12638153115695167469 }],
   [],
   []],
  fnvOffset⟩

def rz5_7 : HashTable String String :=
  ⟨16, 4, 4,
  [[],
   [],
   [],
   [],
   [],
   [],
   [],
   [],
   [],
   [],
   [],
   [{ entry := { Key := "4", Value := "bar" }, hash := 12638153115695167467 }],
   [{ entry := { Key := "3", Value := "bar" }, hash := 12638153115695167468 }],
   [{ entry := { Key := "2", Value := "bar" }, hash := 12638153115695167469 }],
   [{ entry := { Key := "1", Value := "bar" }, hash := 12638153115695167470 }],
   []],
  fnvOffset⟩

def rz9_pre : HashTable String String :=
  ⟨16, 9, 9,
  [[],
   [],
   [],
   [],
   [],
   [],
   [],
   [{ entry := { Key := "8", Value := "bar" }, hash := 12638153115695167463 }],
   [{ entry := { Key := "7", Value := "bar" }, hash := 12638153115695167464 }],
   [{ entry := { Key := "6", Value := "bar" }, hash := 12638153115695167465 }],
   [{ entry := { Key := "5", Value := "bar" }, hash := 12638153115695167466 }],
   [{ entry := { Key := "4", Value := "bar" }, hash := 12638153115695167467 }],
   [{ entry := { Key := "3", Value := "bar" }, hash := 12638153115695167468 }],
   [{ entry := { Key := "2", Value := "bar" }, hash := 12638153115695167469 }],
   [{ entry := { Key := "1", Value := "bar" }, hash := 12638153115695167470 }],
   [{ entry := { Key := "0", Value := "bar" }, hash := 12638153115695167471 }]],
  fnvOffset⟩

def rz9_0 : HashTable String String :=
  ⟨32, 0, 0, List.replicate 32 [], fnvOffset⟩

def rz9_8 : HashTable String String :=
  ⟨32, 1, 1,
  [[],
   [],
   [],
   [],
   [],
   [],
   [],
   [{ entry := { Key := "8", Value := "bar" }, hash := 12638153115695167463 }],
   [],
   [],
   [],
   [],
   [],
   [],
   [],
   [],
   [],
   [],
   [],
   [],
   [],
   [],
   [],
   [],
   [],
   [],
   [],
   [],
   [],
   [],
   [],
   []],
  fnvOffset⟩

def rz9_9 : HashTable String String :=
  ⟨32, 2, 2,
  [[],
   [],
   [],
   [],
   [],
   [],
   [],
   [{ entry := { Key := "8", Value := "bar" }, hash := 12638153115695167463 }],
   [{ entry := { Key := "7", Value := "bar" }, hash := 12638153115695167464 }],
   [],
   [],
   [],
   [],
   [],
   [],
   [],
   [],
   [],
   [],
   [],
   [],
   [],
   [],
   [],
   [],
   [],
   [],
   [],
   [],
   [],
   [],
   []],
  fnvOffset⟩

def rz9_10 : HashTable String String :=
  ⟨32, 3, 3,
  [[],
   [],
   [],
   [],
   [],
   [],
   [],
   [{ entry := { Key := "8", Value := "bar" }, hash := 12638153115695167463 }],
   [{ entry := { Key := "7", Value := "bar" }, hash := 12638153115695167464 }],
   [{ entry := { Key := "6", Value := "bar" }, hash := 12638153115695167465 }],
   [],
   [],
   [],
   [],
   [],
   [],
   [],
   [],
   [],
   [],
   [],
   [],
   [],
   [],
   [],
   [],
   [],
   [],
   [],
   [],
   [],
   []],
  fnvOffset⟩

def rz9_11 : HashTable String String :=
  ⟨32, 4, 4,
  [[],
   [],
   [],
   [],
   [],
   [],
   [],
   [{ entry := { Key := "8", Value := "bar" }, hash := 12638153115695167463 }],
   [{ entry := { Key := "7", Value := "bar" }, hash := 12638153115695167464 }],
   [{ entry := { Key := "6", Value := "bar" }, hash := 12638153115695167465 }],
   [{ entry := { Key := "5", Value := "bar" }, hash := 12638153115695167466 }],
   [],
   [],
   [],
   [],
   [],
   [],
   [],
   [],
   [],
   [],
   [],
   [],
   [],
   [],
   [],
   [],
   [],
   [],
   [],
   [],
   []],
  fnvOffset⟩

def rz9_12 : HashTable String String :=
  ⟨32, 5, 5,
  [[],
   [],
   [],
   [],
   [],
   [],
   [],
   [{ entry := { Key := "8", Value := "bar" }, hash := 12638153115695167463 }],
   [{ entry := { Key := "7", Value := "bar" }, hash := 12638153115695167464 }],
   [{ entry := { Key := "6", Value := "bar" }, hash := 12638153115695167465 }],
   [{ entry := { Key := "5", Value := "bar" }, hash := 12638153115695167466 }],
   [{ entry := { Key := "4", Value := "bar" }, hash := 12638153115695167467 }],
   [],
   [],
   [],
   [],
   [],
   [],
   [],
   [],
   [],
   [],
   [],
   [],
   [],
   [],
   [],
   [],
   [],
   [],
   [],
   []],
  fnvOffset⟩

def rz9_13 : HashTable String String :=
  ⟨32, 6, 6,
  [[],
   [],
   [],
   [],
   [],
   [],
   [],
   [{ entry := { Key := "8", Value := "bar" }, hash := 12638153115695167463 }],
   [{ entry := { Key := "7", Value := "bar" }, hash := 12638153115695167464 }],
   [{ entry := { Key := "6", Value := "bar" }, hash := 12638153115695167465 }],
   [{ entry := { Key := "5", Value := "bar" }, hash := 12638153115695167466 }],
   [{ entry := { Key := "4", Value := "bar" }, hash := 12638153115695167467 }],
   [{ entry := { Key := "3", Value := "bar" }, hash := 12638153115695167468 }],
   [],
   [],
   [],
   [],
   [],
   [],
   [],
   [],
   [],
   [],
   [],
   [],
   [],
   [],
   [],
   [],
   [],
   [],
   []],
  fnvOffset⟩

def rz9_14 : HashTable String String :=
  ⟨32, 7, 7,
  [[],
   [],
   [],
   [],
   [],
   [],
   [],
   [{ entry := { Key := "8", Value := "bar" }, hash := 12638153115695167463 }],
   [{ entry := { Key := "7", Value := "bar" }, hash := 12638153115695167464 }],
   [{ entry := { Key := "6", Value := "bar" }, hash := 12638153115695167465 }],
   [{ entry := { Key := "5", Value := "bar" }, hash := 12638153115695167466 }],
   [{ entry := { Key := "4", Value := "bar" }, hash := 12638153115695167467 }],
   [{ entry := { Key := "3", Value := "bar" }, hash := 12638153115695167468 }],
   [{ entry := { Key := "2", Value := "bar" }, hash := 12638153115695167469 }],
   [],
   [],
   [],
   [],
   [],
   [],
   [],
   [],
   [],
   [],
   [],
   [],
   [],
   [],
   [],
   [],
   [],
   []],
  fnvOffset⟩

def rz9_15 : HashTable String String :=
  ⟨32, 8, 8,
  [[],
   [],
   [],
   [],
   [],
   [],
   [],
   [{ entry := { Key := "8", Value := "bar" }, hash := 12638153115695167463 }],
   [{ entry := { Key := "7", Value := "bar" }, hash := 12638153115695167464 }],
   [{ entry := { Key := "6", Value := "bar" }, hash := 12638153115695167465 }],
   [{ entry := { Key := "5", Value := "bar" }, hash := 12638153115695167466 }],
   [{ entry := { Key := "4", Value := "bar" }, hash := 12638153115695167467 }],
   [{ entry := { Key := "3", Value := "bar" }, hash := 12638153115695167468 }],
   [{ entry := { Key := "2", Value := "bar" }, hash := 12638153115695167469 }],
   [{ entry := { Key := "1", Value := "bar" }, hash := 12638153115695167470 }],
   [],
   [],
   [],
   [],
   [],
   [],
   [],
   [],
   [],
   [],
   [],
   [],
   [],
   [],
   [],
   [],
   []],
  fnvOffset⟩

def rz17_pre : HashTable String String :=
  ⟨32, 17, 17,
  [[],
   [],
   [],
   [],
   [],
   [],
   [{ entry := { Key := "9", Value := "bar" }, hash := 12638153115695167462 }],
   [{ entry := { Key := "8", Value := "bar" }, hash := 12638153115695167463 }],
   [{ entry := { Key := "7", Value := "bar" }, hash := 12638153115695167464 }],
   [{ entry := { Key := "6", Value := "bar" }, hash := 12638153115695167465 }],
   [{ entry := { Key := "5", Value := "bar" }, hash := 12638153115695167466 }],
   [{ entry := { Key := "4", Value := "bar" }, hash := 12638153115695167467 }],
   [{ entry := { Key := "3", Value := "bar" }, hash := 12638153115695167468 }],
   [{ entry := { Key := "2", Value := "bar" }, hash := 12638153115695167469 }],
   [{ entry := { Key := "1", Value := "bar" }, hash := 12638153115695167470 }],
   [{ entry := { Key := "0", Value := "bar" }, hash := 12638153115695167471 }],
   [],
   [],
   [],
   [],
   [],
   [],
   [],
   [],
   [{ entry := { Key := "12", Value := "bar" }, hash := 590700560494856536 }],
   [{ entry := { Key := "13", Value := "bar" }, hash := 590700560494856537 }],
   [{ entry := { Key := "10", Value := "bar" }, hash := 590700560494856538 }],
   [{ entry := { Key := "11", Value := "bar" }, hash := 590700560494856539 }],
   [{ entry := { Key := "16", Value := "bar" }, hash := 590700560494856540 }],
   [],
   [{ entry := { Key := "14", Value := "bar" }, hash := 590700560494856542 }],
   [{ entry := { Key := "15", Value := "bar" }, hash := 590700560494856543 }]],
  fnvOffset⟩

def rz17_0 : HashTable String String :=
  ⟨64, 0, 0, List.replicate 64 [], fnvOffset⟩

def rz17_7 : HashTable String String :=
  ⟨64, 1, 1,
  [[],
   [],
   [],
   [],
   [],
   [],
   [],
   [],
   [],
   [],
   [],
   [],
   [],
   [],
   [],
   [],
   [],
   [],
   [],
   [],
   [],
   [],
   [],
   [],
   [],
   [],
   [],
   [],
   [],
   [],
   [],
   [],
   [],
   [],
   [],
   [],
   [],
   [],
   [{ entry := { Key := "9", Value := "bar" }, hash := 12638153115695167462 }],
   [],
   [],
   [],
   [],
   [],
   [],
   [],
   [],
   [],
   [],
   [],
   [],
   [],
   [],
   [],
   [],
   [],
   [],
   [],
   [],
   [],
   [],
   [],
   [],
   []],
  fnvOffset⟩

def rz17_8 : HashTable String String :=
  ⟨64, 2, 2,
  [[],
   [],
   [],
   [],
   [],
   [],
   [],
   [],
   [],
   [],
   [],
   [],
   [],
   [],
   [],
   [],
   [],
   [],
   [],
   [],
   [],
   [],
   [],
   [],
   [],
   [],
   [],
   [],
   [],
   [],
   [],
   [],
   [],
   [],
   [],
   [],
   [],
   [],
   [{ entry := { Key := "9", Value := "bar" }, hash := 12638153115695167462 }],
   [{ entry := { Key := "8", Value := "bar" }, hash := 12638153115695167463 }],
   [],
   [],
   [],
   [],
   [],
   [],
   [],
   [],
   [],
   [],
   [],
   [],
   [],
   [],
   [],
   [],
   [],
   [],
   [],
   [],
   [],
   [],
   [],
   []],
  fnvOffset⟩

def rz17_9 : HashTable String String :=
  ⟨64, 3, 3,
  [[],
   [],
   [],
   [],
   [],
   [],
   [],
   [],
   [],
   [],
   [],
   [],
   [],
   [],
   [],
   [],
   [],
   [],
   [],
   [],
   [],
   [],
   [],
   [],
   [],
   [],
   [],
   [],
   [],
   [],
   [],
   [],
   [],
   [],
   [],
   [],
   [],
   [],
   [{ entry := { Key := "9", Value := "bar" }, hash := 12638153115695167462 }],
   [{ entry := { Key := "8", Value := "bar" }, hash := 12638153115695167463 }],
   [{ entry := { Key := "7", Value := "bar" }, hash := 12638153115695167464 }],
   [],
   [],
   [],
   [],
   [],
   [],
   [],
   [],
   [],
   [],
   [],
   [],
   [],
   [],
   [],
   [],
   [],
   [],
   [],
   [],
   [],
   [],
   []],
  fnvOffset⟩

def rz17_10 : HashTable String String :=
  ⟨64, 4, 4,
  [[],
   [],
   [],
   [],
   [],
   [],
   [],
   [],
   [],
   [],
   [],
   [],
   [],
   [],
   [],
   [],
   [],
   [],
   [],
   [],
   [],
   [],
   [],
   [],
   [],
   [],
   [],
   [],
   [],
   [],
   [],
   [],
   [],
   [],
   [],
   [],
   [],
   [],
   [{ entry := { Key := "9", Value := "bar" }, hash := 12638153115695167462 }],
   [{ entry := { Key := "8", Value := "bar" }, hash := 12638153115695167463 }],
   [{ entry := { Key := "7", Value := "bar" }, hash := 12638153115695167464 }],
   [{ entry := { Key := "6", Value := "bar" }, hash := 12638153115695167465 }],
   [],
   [],
   [],
   [],
   [],
   [],
   [],
   [],
   [],
   [],
   [],
   [],
   [],
   [],
   [],
   [],
   [],
   [],
   [],
   [],
   [],
   []],
  fnvOffset⟩

def rz17_11 : HashTable String String :=
  ⟨64, 5, 5,
  [[],
   [],
   [],
   [],
   [],
   [],
   [],
   [],
   [],
   [],
   [],
   [],
   [],
   [],
   [],
   [],
   [],
   [],
   [],
   [],
   [],
   [],
   [],
   [],
   [],
   [],
   [],
   [],
   [],
   [],
   [],
   [],
   [],
   [],
   [],
   [],
   [],
   [],
   [{ entry := { Key := "9", Value := "bar" }, hash := 12638153115695167462 }],
   [{ entry := { Key := "8", Value := "bar" }, hash := 12638153115695167463 }],
   [{ entry := { Key := "7", Value := "bar" }, hash := 12638153115695167464 }],
   [{ entry := { Key := "6", Value := "bar" }, hash := 12638153115695167465 }],
   [{ entry := { Key := "5", Value := "bar" }, hash := 12638153115695167466 }],
   [],
   [],
   [],
   [],
   [],
   [],
   [],
   [],
   [],
   [],
   [],
   [],
   [],
   [],
   [],
   [],
   [],
   [],
   [],
   [],
   []],
  fnvOffset⟩

def rz17_12 : HashTable String String :=
  ⟨64, 6, 6,
  [[],
   [],
   [],
   [],
   [],
   [],
   [],
   [],
   [],
   [],
   [],
   [],
   [],
   [],
   [],
   [],
   [],
   [],
   [],
   [],
   [],
   [],
   [],
   [],
   [],
   [],
   [],
   [],
   [],
   [],
   [],
   [],
   [],
   [],
   [],
   [],
   [],
   [],
   [{ entry := { Key := "9", Value := "bar" }, hash := 12638153115695167462 }],
   [{ entry := { Key := "8", Value := "bar" }, hash := 12638153115695167463 }],
   [{ entry := { Key := "7", Value := "bar" }, hash := 12638153115695167464 }],
   [{ entry := { Key := "6", Value := "bar" }, hash := 12638153115695167465 }],
   [{ entry := { Key := "5", Value := "bar" }, hash := 12638153115695167466 }],
   [{ entry := { Key := "4", Value := "bar" }, hash := 12638153115695167467 }],
   [],
   [],
   [],
   [],
   [],
   [],
   [],
   [],
   [],
   [],
   [],
   [],
   [],
   [],
   [],
   [],
   [],
   [],
   [],
   []],
  fnvOffset⟩

def rz17_13 : HashTable String String :=
  ⟨64, 7, 7,
  [[],
   [],
   [],
   [],
   [],
   [],
   [],
   [],
   [],
   [],
   [],
   [],
   [],
   [],
   [],
   [],
   [],
   [],
   [],
   [],
   [],
   [],
   [],
   [],
   [],
   [],
   [],
   [],
   [],
   [],
   [],
   [],
   [],
   [],
   [],
   [],
   [],
   [],
   [{ entry := { Key := "9", Value := "bar" }, hash := 12638153115695167462 }],
   [{ entry := { Key := "8", Value := "bar" }, hash := 12638153115695167463 }],
   [{ entry := { Key := "7", Value := "bar" }, hash := 12638153115695167464 }],
   [{ entry := { Key := "6", Value := "bar" }, hash := 12638153115695167465 }],
   [{ entry := { Key := "5", Value := "bar" }, hash := 12638153115695167466 }],
   [{ entry := { Key := "4", Value := "bar" }, hash := 12638153115695167467 }],
   [{ entry := { Key := "3", Value := "bar" }, hash := 12638153115695167468 }],
   [],
   [],
   [],
   [],
   [],
   [],
   [],
   [],
   [],
   [],
   [],
   [],
   [],
   [],
   [],
   [],
   [],
   [],
   []],
  fnvOffset⟩

def rz17_14 : HashTable String String :=
  ⟨64, 8, 8,
  [[],
   [],
   [],
   [],
   [],
   [],
   [],
   [],
   [],
   [],
   [],
   [],
   [],
   [],
   [],
   [],
   [],
   [],
   [],
   [],
   [],
   [],
   [],
   [],
   [],
   [],
   [],
   [],
   [],
   [],
   [],
   [],
   [],
   [],
   [],
   [],
   [],
   [],
   [{ entry := { Key := "9", Value := "bar" }, hash := 12638153115695167462 }],
   [{ entry := { Key := "8", Value := "bar" }, hash := 12638153115695167463 }],
   [{ entry := { Key := "7", Value := "bar" }, hash := 12638153115695167464 }],
   [{ entry := { Key := "6", Value := "bar" }, hash := 12638153115695167465 }],
   [{ entry := { Key := "5", Value := "bar" }, hash := 12638153115695167466 }],
   [{ entry := { Key := "4", Value := "bar" }, hash := 12638153115695167467 }],
   [{ entry := { Key := "3", Value := "bar" }, hash := 12638153115695167468 }],
   [{ entry := { Key := "2", Value := "bar" }, hash := 12638153115695167469 }],
   [],
   [],
   [],
   [],
   [],
   [],
   [],
   [],
   [],
   [],
   [],
   [],
   [],
   [],
   [],
   [],
   [],
   []],
  fnvOffset⟩

def rz17_15 : HashTable String String :=
  ⟨64, 9, 9,
  [[],
   [],
   [],
   [],
   [],
   [],
   [],
   [],
   [],
   [],
   [],
   [],
   [],
   [],
   [],
   [],
   [],
   [],
   [],
   [],
   [],
   [],
   [],
   [],
   [],
   [],
   [],
   [],
   [],
   [],
   [],
   [],
   [],
   [],
   [],
   [],
   [],
   [],
   [{ entry := { Key := "9", Value := "bar" }, hash := 12638153115695167462 }],
   [{ entry := { Key := "8", Value := "bar" }, hash := 12638153115695167463 }],
   [{ entry := { Key := "7", Value := "bar" }, hash := 12638153115695167464 }],
   [{ entry := { Key := "6", Value := "bar" }, hash := 12638153115695167465 }],
   [{ entry := { Key := "5", Value := "bar" }, hash := 12638153115695167466 }],
   [{ entry := { Key := "4", Value := "bar" }, hash := 12638153115695167467 }],
   [{ entry := { Key := "3", Value := "bar" }, hash := 12638153115695167468 }],
   [{ entry := { Key := "2", Value := "bar" }, hash := 12638153115695167469 }],
   [{ entry := { Key := "1", Value := "bar" }, hash := 12638153115695167470 }],
   [],
   [],
   [],
   [],
   [],
   [],
   [],
   [],
   [],
   [],
   [],
   [],
   [],
   [],
   [],
   [],
   []],
  fnvOffset⟩

def rz17_16 : HashTable String String :=
  ⟨64, 10, 10,
  [[],
   [],
   [],
   [],
   [],
   [],
   [],
   [],
   [],
   [],
   [],
   [],
   [],
   [],
   [],
   [],
   [],
   [],
   [],
   [],
   [],
   [],
   [],
   [],
   [],
   [],
   [],
   [],
   [],
   [],
   [],
   [],
   [],
   [],
   [],
   [],
   [],
   [],
   [{ entry := { Key := "9", Value := "bar" }, hash := 12638153115695167462 }],
   [{ entry := { Key := "8", Value := "bar" }, hash := 12638153115695167463 }],
   [{ entry := { Key := "7", Value := "bar" }, hash := 12638153115695167464 }],
   [{ entry := { Key := "6", Value := "bar" }, hash := 12638153115695167465 }],
   [{ entry := { Key := "5", Value := "bar" }, hash := 12638153115695167466 }],
   [{ entry := { Key := "4", Value := "bar" }, hash := 12638153115695167467 }],
   [{ entry := { Key := "3", Value := "bar" }, hash := 12638153115695167468 }],
   [{ entry := { Key := "2", Value := "bar" }, hash := 12638153115695167469 }],
   [{ entry := { Key := "1", Value := "bar" }, hash := 12638153115695167470 }],
   [{ entry := { Key := "0", Value := "bar" }, hash := 12638153115695167471 }],
   [],
   [],
   [],
   [],
   [],
   [],
   [],
   [],
   [],
   [],
   [],
   [],
   [],
   [],
   [],
   []],
  fnvOffset⟩

def rz17_25 : HashTable String String :=
  ⟨64, 11, 11,
  [[],
   [],
   [],
   [],
   [],
   [],
   [],
   [],
   [],
   [],
   [],
   [],
   [],
   [],
   [],
   [],
   [],
   [],
   [],
   [],
   [],
   [],
   [],
   [],
   [{ entry := { Key := "12", Value := "bar" }, hash := 590700560494856536 }],
   [],
   [],
   [],
   [],
   [],
   [],
   [],
   [],
   [],
   [],
   [],
   [],
   [],
   [{ entry := { Key := "9", Value := "bar" }, hash := 12638153115695167462 }],
   [{ entry := { Key := "8", Value := "bar" }, hash := 12638153115695167463 }],
   [{ entry := { Key := "7", Value := "bar" }, hash := 12638153115695167464 }],
   [{ entry := { Key := "6", Value := "bar" }, hash := 12638153115695167465 }],
   [{ entry := { Key := "5", Value := "bar" }, hash := 12638153115695167466 }],
   [{ entry := { Key := "4", Value := "bar" }, hash := 12638153115695167467 }],
   [{ entry := { Key := "3", Value := "bar" }, hash := 12638153115695167468 }],
   [{ entry := { Key := "2", Value := "bar" }, hash := 12638153115695167469 }],
   [{ entry := { Key := "1", Value := "bar" }, hash := 12638153115695167470 }],
   [{ entry := { Key := "0", Value := "bar" }, hash := 12638153115695167471 }],
   [],
   [],
   [],
   [],
   [],
   [],
   [],
   [],
   [],
   [],
   [],
   [],
   [],
   [],
   [],
   []],
  fnvOffset⟩

def rz17_26 : HashTable String String :=
  ⟨64, 12, 12,
  [[],
   [],
   [],
   [],
   [],
   [],
   [],
   [],
   [],
   [],
   [],
   [],
   [],
   [],
   [],
   [],
   [],
   [],
   [],
   [],
   [],
   [],
   [],
   [],
   [{ entry := { Key := "12", Value := "bar" }, hash := 590700560494856536 }],
   [{ entry := { Key := "13", Value := "bar" }, hash := 590700560494856537 }],
   [],
   [],
   [],
   [],
   [],
   [],
   [],
   [],
   [],
   [],
   [],
   [],
   [{ entry := { Key := "9", Value := "bar" }, hash := 12638153115695167462 }],
   [{ entry := { Key := "8", Value := "bar" }, hash := 12638153115695167463 }],
   [{ entry := { Key := "7", Value := "bar" }, hash := 12638153115695167464 }],
   [{ entry := { Key := "6", Value := "bar" }, hash := 12638153115695167465 }],
   [{ entry := { Key := "5", Value := "bar" }, hash := 12638153115695167466 }],
   [{ entry := { Key := "4", Value := "bar" }, hash := 12638153115695167467 }],
   [{ entry := { Key := "3", Value := "bar" }, hash := 12638153115695167468 }],
   [{ entry := { Key := "2", Value := "bar" }, hash := 12638153115695167469 }],
   [{ entry := { Key := "1", Value := "bar" }, hash := 12638153115695167470 }],
   [{ entry := { Key := "0", Value := "bar" }, hash := 12638153115695167471 }],
   [],
   [],
   [],
   [],
   [],
   [],
   [],
   [],
   [],
   [],
   [],
   [],
   [],
   [],
   [],
   []],
  fnvOffset⟩

def rz17_27 : HashTable String String :=
  ⟨64, 13, 13,
  [[],
   [],
   [],
   [],
   [],
   [],
   [],
   [],
   [],
   [],
   [],
   [],
   [],
   [],
   [],
   [],
   [],
   [],
   [],
   [],
   [],
   [],
   [],
   [],
   [{ entry := { Key := "12", Value := "bar" }, hash := 590700560494856536 }],
   [{ entry := { Key := "13", Value := "bar" }, hash := 590700560494856537 }],
   [{ entry := { Key := "10", Value := "bar" }, hash := 590700560494856538 }],
   [],
   [],
   [],
   [],
   [],
   [],
   [],
   [],
   [],
   [],
   [],
   [{ entry := { Key := "9", Value := "bar" }, hash := 12638153115695167462 }],
   [{ entry := { Key := "8", Value := "bar" }, hash := 12638153115695167463 }],
   [{ entry := { Key := "7", Value := "bar" }, hash := 12638153115695167464 }],
   [{ entry := { Key := "6", Value := "bar" }, hash := 12638153115695167465 }],
   [{ entry := { Key := "5", Value := "bar" }, hash := 12638153115695167466 }],
   [{ entry := { Key := "4", Value := "bar" }, hash := 12638153115695167467 }],
   [{ entry := { Key := "3", Value := "bar" }, hash := 12638153115695167468 }],
   [{ entry := { Key := "2", Value := "bar" }, hash := 12638153115695167469 }],
   [{ entry := { Key := "1", Value := "bar" }, hash := 12638153115695167470 }],
   [{ entry := { Key := "0", Value := "bar" }, hash := 12638153115695167471 }],
   [],
   [],
   [],
   [],
   [],
   [],
   [],
   [],
   [],
   [],
   [],
   [],
   [],
   [],
   [],
   []],
  fnvOffset⟩

def rz17_28 : HashTable String String :=
  ⟨64, 14, 14,
  [[],
   [],
   [],
   [],
   [],
   [],
   [],
   [],
   [],
   [],
   [],
   [],
   [],
   [],
   [],
   [],
   [],
   [],
   [],
   [],
   [],
   [],
   [],
   [],
   [{ entry := { Key := "12", Value := "bar" }, hash := 590700560494856536 }],
   [{ entry := { Key := "13", Value := "bar" }, hash := 590700560494856537 }],
   [{ entry := { Key := "10", Value := "bar" }, hash := 590700560494856538 }],
   [{ entry := { Key := "11", Value := "bar" }, hash := 590700560494856539 }],
   [],
   [],
   [],
   [],
   [],
   [],
   [],
   [],
   [],
   [],
   [{ entry := { Key := "9", Value := "bar" }, hash := 12638153115695167462 }],
   [{ entry := { Key := "8", Value := "bar" }, hash := 12638153115695167463 }],
   [{ entry := { Key := "7", Value := "bar" }, hash := 12638153115695167464 }],
   [{ entry := { Key := "6", Value := "bar" }, hash := 12638153115695167465 }],
   [{ entry := { Key := "5", Value := "bar" }, hash := 12638153115695167466 }],
   [{ entry := { Key := "4", Value := "bar" }, hash := 12638153115695167467 }],
   [{ entry := { Key := "3", Value := "bar" }, hash := 12638153115695167468 }],
   [{ entry := { Key := "2", Value := "bar" }, hash := 12638153115695167469 }],
   [{ entry := { Key := "1", Value := "bar" }, hash := 12638153115695167470 }],
   [{ entry := { Key := "0", Value := "bar" }, hash := 12638153115695167471 }],
   [],
   [],
   [],
   [],
   [],
   [],
   [],
   [],
   [],
   [],
   [],
   [],
   [],
   [],
   [],
   []],
  fnvOffset⟩

def rz17_29 : HashTable String String :=
  ⟨64, 15, 15,
  [[],
   [],
   [],
   [],
   [],
   [],
   [],
   [],
   [],
   [],
   [],
   [],
   [],
   [],
   [],
   [],
   [],
   [],
   [],
   [],
   [],
   [],
   [],
   [],
   [{ entry := { Key := "12", Value := "bar" }, hash := 590700560494856536 }],
   [{ entry := { Key := "13", Value := "bar" }, hash := 590700560494856537 }],
   [{ entry := { Key := "10", Value := "bar" }, hash := 590700560494856538 }],
   [{ entry := { Key := "11", Value := "bar" }, hash := 590700560494856539 }],
   [{ entry := { Key := "16", Value := "bar" }, hash := 590700560494856540 }],
   [],
   [],
   [],
   [],
   [],
   [],
   [],
   [],
   [],
   [{ entry := { Key := "9", Value := "bar" }, hash := 12638153115695167462 }],
   [{ entry := { Key := "8", Value := "bar" }, hash := 12638153115695167463 }],
   [{ entry := { Key := "7", Value := "bar" }, hash := 12638153115695167464 }],
   [{ entry := { Key := "6", Value := "bar" }, hash := 12638153115695167465 }],
   [{ entry := { Key := "5", Value := "bar" }, hash := 12638153115695167466 }],
   [{ entry := { Key := "4", Value := "bar" }, hash := 12638153115695167467 }],
   [{ entry := { Key := "3", Value := "bar" }, hash := 12638153115695167468 }],
   [{ entry := { Key := "2", Value := "bar" }, hash := 12638153115695167469 }],
   [{ entry := { Key := "1", Value := "bar" }, hash := 12638153115695167470 }],
   [{ entry := { Key := "0", Value := "bar" }, hash := 12638153115695167471 }],
   [],
   [],
   [],
   [],
   [],
   [],
   [],
   [],
   [],
   [],
   [],
   [],
   [],
   [],
   [],
   []],
  fnvOffset⟩

def rz17_31 : HashTable String String :=
  ⟨64, 16, 16,
  [[],
   [],
   [],
   [],
   [],
   [],
   [],
   [],
   [],
   [],
   [],
   [],
   [],
   [],
   [],
   [],
   [],
   [],
   [],
   [],
   [],
   [],
   [],
   [],
   [{ entry := { Key := "12", Value := "bar" }, hash := 590700560494856536 }],
   [{ entry := { Key := "13", Value := "bar" }, hash := 590700560494856537 }],
   [{ entry := { Key := "10", Value := "bar" }, hash := 590700560494856538 }],
   [{ entry := { Key := "11", Value := "bar" }, hash := 590700560494856539 }],
   [{ entry := { Key := "16", Value := "bar" }, hash := 590700560494856540 }],
   [],
   [{ entry := { Key := "14", Value := "bar" }, hash := 590700560494856542 }],
   [],
   [],
   [],
   [],
   [],
   [],
   [],
   [{ entry := { Key := "9", Value := "bar" }, hash := 12638153115695167462 }],
   [{ entry := { Key := "8", Value := "bar" }, hash := 12638153115695167463 }],
   [{ entry := { Key := "7", Value := "bar" }, hash := 12638153115695167464 }],
   [{ entry := { Key := "6", Value := "bar" }, hash := 12638153115695167465 }],
   [{ entry := { Key := "5", Value := "bar" }, hash := 12638153115695167466 }],
   [{ entry := { Key := "4", Value := "bar" }, hash := 12638153115695167467 }],
   [{ entry := { Key := "3", Value := "bar" }, hash := 12638153115695167468 }],
   [{ entry := { Key := "2", Value := "bar" }, hash := 12638153115695167469 }],
   [{ entry := { Key := "1", Value := "bar" }, hash := 12638153115695167470 }],
   [{ entry := { Key := "0", Value := "bar" }, hash := 12638153115695167471 }],
   [],
   [],
   [],
   [],
   [],
   [],
   [],
   [],
   [],
   [],
   [],
   [],
   [],
   [],
   [],
   []],
  fnvOffset⟩

/-- Concrete table used by witnesses: `New` with key 0 inserted. -/
def tblA : HashTable Nat Nat := (insertF encodeNat 20 NewHashTable 0 10).getD NewHashTable

/-- The node built for inserting key 1 with value 20. -/
def nodeB : Node Nat Nat := { entry := { Key := 1, Value := 20 }, hash := hashOf encodeNat 1 }

/-- The base-inserted (pre-resize) state of inserting key 1 into `tblA`. -/
def tblAB : HashTable Nat Nat :=
  (insertBaseF tblA nodeB (hashOf encodeNat 1 % tblA.actualBucketLength)).getD NewHashTable

/-- The final state of inserting key 1 into `tblA` (resize triggered). -/
def tblB : HashTable Nat Nat := (insertF encodeNat 20 tblA 1 20).getD NewHashTable

/-- Concrete table used by witnesses: `New` with key 5 inserted. -/
def tblC : HashTable Nat Nat := (insertF encodeNat 20 NewHashTable 5 7).getD NewHashTable

/-- Concrete table: `New` with key 5 bound to 100. -/
def tblD : HashTable Nat Nat := (insertF encodeNat 20 NewHashTable 5 100).getD NewHashTable

/-- Concrete table: `tblD` with key 5 overwritten to 200. -/
def tblE : HashTable Nat Nat := (insertF encodeNat 20 tblD 5 200).getD NewHashTable

/-- Concrete table: `tblC` (holding key 5) after `Delete 5`. -/
def tblDel : HashTable Nat Nat := (deleteF encodeNat tblC 5).getD NewHashTable

/-- Concrete table: `New` with key 1 inserted. -/
def tblF : HashTable Nat Nat := (insertF encodeNat 20 NewHashTable 1 10).getD NewHashTable

/-- Concrete table: `tblF` after `Delete 1` (bucket cleared, `sizeItems` left at 1). -/
def tblFdel : HashTable Nat Nat := (deleteF encodeNat tblF 1).getD NewHashTable

/-- Fresh table after `Delete 0`: the `uint32` occupied counter has wrapped
to `2^32 - 1`. -/
def tblG : HashTable Nat Nat := (deleteF encodeNat NewHashTable 0).getD NewHashTable

/-- `tblG` after the next `Insert`: the counter wraps back to 0 and no
resize fires. -/
def tblH : HashTable Nat Nat := (insertF encodeNat 20 tblG 1 99).getD NewHashTable

lemma hasher_reset_eq (t : HashTable K V) (h : t.hasherState = fnvOffset) :
    { t with hasherState := fnvOffset } = t := by
  cases t
  simp_all

lemma generateIndex_eq (t : HashTable K V) (hpos : 0 < t.actualBucketLength)
    (hle : t.actualBucketLength ≤ 2 ^ 32) (h : Nat) :
    generateIndex t h = h % t.actualBucketLength := by
  unfold generateIndex
  exact Nat.mod_eq_of_lt (lt_of_lt_of_le (Nat.mod_lt _ hpos) hle)

lemma flatten_replicate_nil {α : Type} : ∀ n, (List.replicate n ([] : List α)).flatten = []
  | 0 => rfl
  | n + 1 => by simp [List.replicate_succ, flatten_replicate_nil n]

/-- Searching a flattened bucket array reduces to searching one bucket when
every other bucket is predicate-free. -/
lemma find?_flatten_bucket {α : Type} (p : α → Bool) :
    ∀ (bs : List (List α)) (i : Nat) (c : List α), bs[i]? = some c →
      (∀ (j : Nat) (cj : List α), bs[j]? = some cj → j ≠ i → ∀ x ∈ cj, p x = false) →
      bs.flatten.find? p = c.find? p := by
  intro bs
  induction bs with
  | nil => intro i c hc _; simp at hc
  | cons b rest ih =>
    intro i c hc hothers
    match i with
    | 0 =>
      simp at hc
      subst hc
      have hrest : rest.flatten.find? p = none := by
        rw [List.find?_eq_none]
        intro x hx
        rcases List.mem_flatten.mp hx with ⟨l, hl, hxl⟩
        rcases List.mem_iff_getElem?.mp hl with ⟨j, hj⟩
        have := hothers (j + 1) l (by simpa using hj) (by omega) x hxl
        simp [this]
      simp [List.find?_append, hrest]
    | i + 1 =>
      have hb : b.find? p = none := by
        rw [List.find?_eq_none]
        intro x hx
        have := hothers 0 b (by simp) (by omega) x hx
        simp [this]
      simp only [List.flatten_cons, List.find?_append, hb, Option.none_or]
      exact ih i c (by simpa using hc)
        (fun j cj hj hne => hothers (j + 1) cj (by simpa using hj) (by omega))

/-- With per-bucket hash nodup and correct placement, the hashes of the whole
flattened array are pairwise distinct. -/
lemma nodup_flatten_map_hash (cap : Nat) :
    ∀ (bs : List (List (Node K V))) (k : Nat),
      (∀ (i : Nat) (c : List (Node K V)), bs[i]? = some c → ∀ nd ∈ c, nd.hash % cap = i + k) →
      (∀ (i : Nat) (c : List (Node K V)), bs[i]? = some c → (c.map Node.hash).Nodup) →
      (bs.flatten.map Node.hash).Nodup := by
  intro bs
  induction bs with
  | nil => intro k _ _; simp
  | cons b rest ih =>
    intro k hplace hnodup
    simp only [List.flatten_cons, List.map_append]
    refine List.Nodup.append (hnodup 0 b (by simp)) ?_ ?_
    · exact ih (k + 1)
        (fun i c hc nd hnd => by
          have := hplace (i + 1) c (by simpa using hc) nd hnd
          omega)
        (fun i c hc => hnodup (i + 1) c (by simpa using hc))
    · intro h hmem hmem'
      rcases List.mem_map.mp hmem with ⟨nd, hnd, rfl⟩
      rcases List.mem_map.mp hmem' with ⟨nd', hnd', heq⟩
      rcases List.mem_flatten.mp (by simpa using hnd') with ⟨l, hl, hndl⟩
      rcases List.mem_iff_getElem?.mp hl with ⟨j, hj⟩
      have h1 : nd.hash % cap = 0 + k := hplace 0 b (by simp) nd hnd
      have h2 : nd'.hash % cap = (j + 1) + k := hplace (j + 1) l (by simpa using hj) nd' hndl
      rw [heq] at h2
      omega

/-- In a hash-nodup list, `find?` by the hash of a member returns exactly
that member. -/
lemma find?_hash_of_mem :
    ∀ (l : List (Node K V)) (nd : Node K V), nd ∈ l → (l.map Node.hash).Nodup →
      (l.find? fun x => x.hash == nd.hash) = some nd := by
  intro l
  induction l with
  | nil => intro nd h; simp at h
  | cons c rest ih =>
    intro nd hmem hnodup
    rcases List.mem_cons.mp hmem with rfl | hmem'
    · simp
    · have hne : c.hash ≠ nd.hash := by
        intro hcontra
        have : nd.hash ∈ rest.map Node.hash := List.mem_map_of_mem _ hmem'
        simp only [List.map_cons, List.nodup_cons] at hnodup
        exact hnodup.1 (hcontra ▸ this)
      simp only [List.find?_cons, beq_iff_eq, hne, if_neg]
      have : (c.hash == nd.hash) = false := by simpa using hne
      simp only [this]
      exact ih nd hmem' (by simp only [List.map_cons, List.nodup_cons] at hnodup; exact hnodup.2)

/-- Under the invariant, the global first-match lookup reduces to searching
the single bucket that the hash selects. -/
lemma findNode_eq_bucket {encode : K → List Nat} {t : HashTable K V} (wf : WF encode t)
    (h : Nat) (c : List (Node K V)) (hc : t.buckets[h % t.actualBucketLength]? = some c) :
    findNode t h = c.find? fun nd => nd.hash == h := by
  unfold findNode allNodes
  refine find?_flatten_bucket _ t.buckets _ c hc ?_
  intro j cj hj hne x hx
  have := wf.place j cj hj x hx
  have : x.hash ≠ h := by
    intro hcontra
    exact hne (by rw [← this, hcontra])
  simpa using this

lemma bucket_exists {encode : K → List Nat} {t : HashTable K V} (wf : WF encode t) (h : Nat) :
    ∃ c, t.buckets[h % t.actualBucketLength]? = some c := by
  have hlt : h % t.actualBucketLength < t.buckets.length := by
    rw [wf.len]
    exact Nat.mod_lt _ wf.pos
  exact ⟨_, List.getElem?_eq_getElem hlt⟩

/-- Under the invariant, `Get` is first-match lookup by the key's hash. -/
lemma getF_eq_findNode {encode : K → List Nat} {t : HashTable K V} (wf : WF encode t) (key : K) :
    getF encode t key = (findNode t (hashOf encode key)).map fun nd => nd.entry.Value := by
  obtain ⟨c, hc⟩ := bucket_exists wf (hashOf encode key)
  unfold getF HashF generateHash
  simp only [hasher_reset_eq t wf.hb]
  rw [show fnvWrite t.hasherState (encode key) = hashOf encode key by rw [wf.hb]; rfl]
  rw [generateIndex_eq t wf.pos wf.cap_le, hc, findNode_eq_bucket wf _ c hc]

end GoHashTable

namespace GoHashTable

variable {K V : Type}

lemma node_eta (n : Node K V) : (⟨n.entry, n.hash⟩ : Node K V) = n := rfl

/-- `HandleColision` makes the new node the (unique) first match for its
hash. -/
lemma hc_find_self (n : Node K V) :
    ∀ c : List (Node K V), ((HandleColision n c).1.find? fun x => x.hash == n.hash) = some n := by
  intro c
  induction c with
  | nil => simp [HandleColision]
  | cons c rest ih =>
    by_cases hif : c.hash = n.hash
    · simp only [HandleColision, if_pos hif]
      rw [List.find?_cons_of_pos _ (by simp [hif])]
      cases n
      simp_all
    · simp only [HandleColision, if_neg hif]
      rw [List.find?_cons_of_neg _ (by simp [hif])]
      exact ih

/-- `HandleColision` does not disturb lookups of other hashes. -/
lemma hc_find_other (n : Node K V) (h : Nat) (hne : h ≠ n.hash) :
    ∀ c : List (Node K V),
      ((HandleColision n c).1.find? fun x => x.hash == h) = c.find? fun x => x.hash == h := by
  intro c
  induction c with
  | nil => simp [HandleColision, List.find?_singleton, Ne.symm hne]
  | cons c rest ih =>
    by_cases hif : c.hash = n.hash
    · simp only [HandleColision, if_pos hif]
      by_cases hch : c.hash = h
      · omega
      · rw [List.find?_cons_of_neg _ (by simp [hch]), List.find?_cons_of_neg _ (by simp [hch])]
    · simp only [HandleColision, if_neg hif]
      by_cases hch : c.hash = h
      · rw [List.find?_cons_of_pos _ (by simp [hch]), List.find?_cons_of_pos _ (by simp [hch])]
      · rw [List.find?_cons_of_neg _ (by simp [hch]), List.find?_cons_of_neg _ (by simp [hch])]
        exact ih

/-- The appended-flag is set exactly when the chain had no node of the new
node's hash (i.e. when `sizeItems++` runs in Go). -/
lemma hc_flag_iff (n : Node K V) :
    ∀ c : List (Node K V),
      (HandleColision n c).2 = true ↔ (c.find? fun x => x.hash == n.hash) = none := by
  intro c
  induction c with
  | nil => simp [HandleColision]
  | cons c rest ih =>
    by_cases hif : c.hash = n.hash
    · simp only [HandleColision, if_pos hif]
      rw [List.find?_cons_of_pos _ (by simp [hif])]
      simp
    · simp only [HandleColision, if_neg hif]
      rw [List.find?_cons_of_neg _ (by simp [hif])]
      exact ih

/-- Stored hashes after `HandleColision`: unchanged on overwrite, the new
hash appended on append. -/
lemma hc_map_hash (n : Node K V) :
    ∀ c : List (Node K V),
      (HandleColision n c).1.map Node.hash =
        if (HandleColision n c).2 then c.map Node.hash ++ [n.hash] else c.map Node.hash := by
  intro c
  induction c with
  | nil => simp [HandleColision]
  | cons c rest ih =>
    by_cases hif : c.hash = n.hash
    · simp [HandleColision, if_pos hif]
    · simp only [HandleColision, if_neg hif, List.map_cons]
      by_cases hfl : (HandleColision n rest).2
      · simp only [hfl, if_pos rfl] at ih ⊢
        simp [ih]
      · simp only [Bool.not_eq_true] at hfl
        simp only [hfl] at ih ⊢
        simp [ih]

/-- Every node in the updated chain is an old node or the new node. -/
lemma hc_mem (n : Node K V) :
    ∀ (c : List (Node K V)) (nd : Node K V), nd ∈ (HandleColision n c).1 → nd ∈ c ∨ nd = n := by
  intro c
  induction c with
  | nil => intro nd hnd; simp [HandleColision] at hnd; exact Or.inr hnd
  | cons c rest ih =>
    intro nd hnd
    by_cases hif : c.hash = n.hash
    · simp only [HandleColision, if_pos hif] at hnd
      rcases List.mem_cons.mp hnd with rfl | hmem
      · right
        cases n
        simp_all
      · exact Or.inl (List.mem_cons_of_mem _ hmem)
    · simp only [HandleColision, if_neg hif] at hnd
      rcases List.mem_cons.mp hnd with rfl | hmem
      · exact Or.inl (List.mem_cons_self _ _)
      · rcases ih nd hmem with h | h
        · exact Or.inl (List.mem_cons_of_mem _ h)
        · exact Or.inr h

lemma hc_length (n : Node K V) :
    ∀ c : List (Node K V),
      (HandleColision n c).1.length = c.length + if (HandleColision n c).2 then 1 else 0 := by
  intro c
  have := hc_map_hash n c
  have hlen := congrArg List.length this
  simp only [List.length_map] at hlen
  by_cases hfl : (HandleColision n c).2 <;> simp_all

/-- Length bookkeeping for replacing one bucket of the array. -/
lemma flatten_length_set {α : Type} :
    ∀ (bs : List (List α)) (i : Nat) (c c' : List α), bs[i]? = some c →
      (bs.set i c').flatten.length + c.length = bs.flatten.length + c'.length := by
  intro bs
  induction bs with
  | nil => intro i c c' hc; simp at hc
  | cons b rest ih =>
    intro i c c' hc
    match i with
    | 0 =>
      simp only [List.getElem?_cons_zero, Option.some.injEq] at hc
      subst hc
      simp only [List.set_cons_zero, List.flatten_cons, List.length_append]
      omega
    | i + 1 =>
      simp only [List.getElem?_cons_succ] at hc
      have := ih i c c' hc
      simp only [List.set_cons_succ, List.flatten_cons, List.length_append]
      omega

end GoHashTable

namespace GoHashTable

variable {K V : Type}

/-- Shared effect of replacing the target bucket with the `HandleColision`
result (the empty-slot path is the `c = []` instance): the invariant is kept,
the new node becomes the unique match for its hash, and the node count moves
by the appended flag. -/
lemma bucket_update_spec {encode : K → List Nat} {t : HashTable K V} (wf : WF encode t)
    (n : Node K V) (hk : n.hash = hashOf encode n.entry.Key)
    {c : List (Node K V)} (hc : t.buckets[n.hash % t.actualBucketLength]? = some c)
    (t1 : HashTable K V)
    (hbuck : t1.buckets = t.buckets.set (n.hash % t.actualBucketLength) (HandleColision n c).1)
    (hlen : t1.actualBucketLength = t.actualBucketLength)
    (hhs : t1.hasherState = t.hasherState) :
    WF encode t1 ∧ (∀ h, findNode t1 h = if h = n.hash then some n else findNode t h) ∧
      ((HandleColision n c).2 = true →
        (allNodes t1).length = (allNodes t).length + 1 ∧ findNode t n.hash = none) ∧
      ((HandleColision n c).2 = false →
        (allNodes t1).length = (allNodes t).length ∧ (findNode t n.hash).isSome = true) := by
  set idx := n.hash % t.actualBucketLength with hidxdef
  have hidxlt : idx < t.buckets.length := by
    rw [wf.len]
    exact Nat.mod_lt _ wf.pos
  have hget : ∀ j : Nat, t1.buckets[j]? =
      if idx = j then some (HandleColision n c).1 else t.buckets[j]? := by
    intro j
    rw [hbuck, List.getElem?_set]
    by_cases hij : idx = j
    · rw [if_pos hij, if_pos hidxlt, if_pos hij]
    · rw [if_neg hij, if_neg hij]
  have hfind_t : findNode t n.hash = c.find? fun x => x.hash == n.hash :=
    findNode_eq_bucket wf n.hash c hc
  have wf1 : WF encode t1 := by
    refine ⟨hhs.trans wf.hb, ?_, hlen ▸ wf.pos, hlen ▸ wf.cap_le, hlen ▸ wf.cap_pow, ?_, ?_, ?_⟩
    · rw [hbuck, List.length_set, wf.len, hlen]
    · intro j cj hj nd hnd
      rw [hget j] at hj
      by_cases hij : idx = j
      · rw [if_pos hij] at hj
        cases hj
        rcases hc_mem n c nd hnd with hmem | rfl
        · rw [hlen]
          rw [← hij]
          exact hidxdef ▸ wf.place idx c hc nd hmem
        · rw [hlen, ← hij, hidxdef]
      · rw [if_neg hij] at hj
        rw [hlen]
        exact wf.place j cj hj nd hnd
    · intro j cj hj
      rw [hget j] at hj
      by_cases hij : idx = j
      · rw [if_pos hij] at hj
        cases hj
        rw [hc_map_hash]
        by_cases hfl : (HandleColision n c).2
        · rw [if_pos hfl]
          refine List.Nodup.append (wf.chain_nodup idx c hc) (by simp) ?_
          intro h hmem hmem'
          simp only [List.mem_singleton] at hmem'
          subst hmem'
          rcases List.mem_map.mp hmem with ⟨nd, hnd, hhash⟩
          have := (hc_flag_iff n c).mp hfl
          rw [List.find?_eq_none] at this
          exact this nd hnd (by simp [hhash])
        · simp only [Bool.not_eq_true] at hfl
          rw [hfl, if_neg (by simp)]
          exact wf.chain_nodup idx c hc
      · rw [if_neg hij] at hj
        exact wf.chain_nodup j cj hj
    · intro j cj hj nd hnd
      rw [hget j] at hj
      by_cases hij : idx = j
      · rw [if_pos hij] at hj
        cases hj
        rcases hc_mem n c nd hnd with hmem | rfl
        · exact wf.hkey idx c hc nd hmem
        · exact hk
      · rw [if_neg hij] at hj
        exact wf.hkey j cj hj nd hnd
  have hupd : ∀ h, findNode t1 h = if h = n.hash then some n else findNode t h := by
    intro h
    have hlt1 : h % t1.actualBucketLength = h % t.actualBucketLength := by rw [hlen]
    by_cases hh : h = n.hash
    · have hj : h % t.actualBucketLength = idx := by rw [hh]
      have hb1 : t1.buckets[h % t1.actualBucketLength]? = some (HandleColision n c).1 := by
        rw [hlt1, hj, hget, if_pos rfl]
      rw [if_pos hh, findNode_eq_bucket wf1 h _ hb1, hh]
      exact hc_find_self n c
    · rw [if_neg hh]
      by_cases hj : h % t.actualBucketLength = idx
      · have hb1 : t1.buckets[h % t1.actualBucketLength]? = some (HandleColision n c).1 := by
          rw [hlt1, hj, hget, if_pos rfl]
        have hbt : t.buckets[h % t.actualBucketLength]? = some c := by rw [hj]; exact hc
        rw [findNode_eq_bucket wf1 h _ hb1, findNode_eq_bucket wf h c hbt]
        exact hc_find_other n h hh c
      · have hb1 : t1.buckets[h % t1.actualBucketLength]? = t.buckets[h % t.actualBucketLength]? := by
          rw [hlt1, hget, if_neg (fun hcontra => hj hcontra.symm)]
        obtain ⟨cj, hcj⟩ := bucket_exists wf h
        rw [findNode_eq_bucket wf1 h cj (hb1 ▸ hcj), findNode_eq_bucket wf h cj hcj]
  have hcount : (allNodes t1).length + c.length =
      (allNodes t).length + (HandleColision n c).1.length := by
    unfold allNodes
    rw [hbuck]
    exact flatten_length_set t.buckets idx c (HandleColision n c).1 hc
  refine ⟨wf1, hupd, ?_, ?_⟩
  · intro hfl
    have hl := hc_length n c
    rw [if_pos hfl] at hl
    constructor
    · omega
    · rw [hfind_t]
      exact (hc_flag_iff n c).mp hfl
  · intro hfl
    have hl := hc_length n c
    rw [hfl, if_neg (by simp)] at hl
    constructor
    · omega
    · rw [hfind_t]
      rcases hfind : c.find? fun x => x.hash == n.hash with _ | nd
      · rw [(hc_flag_iff n c).mpr hfind] at hfl
        cases hfl
      · rw [hfind]
        rfl

end GoHashTable

namespace GoHashTable

variable {K V : Type}

lemma mod_add_one_mod (a : Nat) : (a % 2 ^ 32 + 1) % 2 ^ 32 = (a + 1) % 2 ^ 32 := by
  conv_rhs => rw [Nat.add_mod]
  norm_num

lemma find?_hash_eq_none {l : List (Node K V)} {h : Nat} (hmem : h ∉ l.map Node.hash) :
    (l.find? fun x => x.hash == h) = none := by
  rw [List.find?_eq_none]
  intro x hx hbeq
  exact hmem (List.mem_map.mpr ⟨x, hx, by simpa using hbeq⟩)

lemma insertBaseF_spec {encode : K → List Nat} {t t1 : HashTable K V} {n : Node K V}
    (wf : WF encode t) (hk : n.hash = hashOf encode n.entry.Key)
    (hrun : insertBaseF t n (n.hash % t.actualBucketLength) = some t1) :
    InsertOutcome encode t n t1 ∧ t1.actualBucketLength = t.actualBucketLength := by
  obtain ⟨c, hc⟩ := bucket_exists wf n.hash
  unfold insertBaseF at hrun
  rw [hc] at hrun
  rcases c with _ | ⟨cc, rest⟩
  · simp only [Option.some.injEq] at hrun
    subst hrun
    obtain ⟨wf1, hupd, hflagT, _⟩ :=
      bucket_update_spec wf n hk hc
        { t with
          buckets := t.buckets.set (n.hash % t.actualBucketLength) [n]
          actualBucketSize := (t.actualBucketSize + 1) % 2 ^ 32
          sizeItems := (t.sizeItems + 1) % 2 ^ 32 }
        (by rfl) rfl rfl
    obtain ⟨hlen1, hnone⟩ := hflagT rfl
    refine ⟨⟨wf1, hupd, ?_, ?_, ⟨0, by simp⟩⟩, rfl⟩
    · rw [hnone]
      simpa using hlen1
    · intro hok
      unfold CountOK at hok ⊢
      show (t.sizeItems + 1) % 2 ^ 32 = _
      rw [hlen1, hok, mod_add_one_mod]
  · simp only [Option.some.injEq] at hrun
    subst hrun
    obtain ⟨wf1, hupd, hflagT, hflagF⟩ :=
      bucket_update_spec wf n hk hc
        { t with
          buckets := t.buckets.set (n.hash % t.actualBucketLength)
            (HandleColision n (cc :: rest)).1
          sizeItems := if (HandleColision n (cc :: rest)).2 then (t.sizeItems + 1) % 2 ^ 32
            else t.sizeItems }
        (by rfl) rfl rfl
    by_cases hfl : (HandleColision n (cc :: rest)).2
    · obtain ⟨hlen1, hnone⟩ := hflagT hfl
      refine ⟨⟨wf1, hupd, ?_, ?_, ⟨0, by simp⟩⟩, rfl⟩
      · rw [hnone]
        simpa using hlen1
      · intro hok
        unfold CountOK at hok ⊢
        show (if (HandleColision n (cc :: rest)).2 then (t.sizeItems + 1) % 2 ^ 32
              else t.sizeItems) = _
        rw [hlen1, if_pos hfl, hok, mod_add_one_mod]
    · simp only [Bool.not_eq_true] at hfl
      obtain ⟨hlen1, hsome⟩ := hflagF hfl
      refine ⟨⟨wf1, hupd, ?_, ?_, ⟨0, by simp⟩⟩, rfl⟩
      · rw [hlen1, hsome]
        simp
      · intro hok
        unfold CountOK at hok ⊢
        show (if (HandleColision n (cc :: rest)).2 then (t.sizeItems + 1) % 2 ^ 32
              else t.sizeItems) = _
        rw [hlen1, if_neg (by simp [hfl]), hok]

end GoHashTable

namespace GoHashTable

variable {K V : Type}

lemma insertF_none_of_nil_buckets {encode : K → List Nat} (fuel : Nat) (t : HashTable K V)
    (k : K) (v : V) (hnil : t.buckets = []) : insertF encode fuel t k v = none := by
  rcases fuel with _ | fuel
  · simp [insertF]
  · rcases fuel with _ | g
    · simp [insertF, insertNodeF]
    · simp [insertF, insertNodeF, insertBaseF, HashF, generateHash, hnil]

lemma reinsertChainsF_none_of_nil {encode : K → List Nat} :
    ∀ (chains : List (List (Node K V))) (fuel : Nat) (t : HashTable K V), t.buckets = [] →
      chains.flatten ≠ [] → reinsertChainsF encode fuel t chains = none := by
  intro chains
  induction chains with
  | nil => intro fuel t _ hne; simp at hne
  | cons c rest ih =>
    intro fuel t hnil hne
    rcases fuel with _ | f
    · simp [reinsertChainsF]
    · rcases c with _ | ⟨nd, ns⟩
      · simp only [reinsertChainsF, reinsertChainF]
        exact ih f t hnil (by simpa using hne)
      · rcases f with _ | f2
        · simp [reinsertChainsF, reinsertChainF]
        · simp only [reinsertChainsF, reinsertChainF,
            insertF_none_of_nil_buckets f2 t nd.entry.Key nd.entry.Value hnil]

/-- Re-inserting a chain of fresh, pairwise-hash-distinct nodes accumulates
them one by one. -/
lemma reinsertChainF_spec {encode : K → List Nat} :
    ∀ fuel : Nat, (∀ g, g < fuel → InsP (K := K) (V := V) encode g) →
    ∀ (L : List (Node K V)) (t t' : HashTable K V), WF encode t →
      (∀ nd ∈ L, nd.hash = hashOf encode nd.entry.Key) →
      ((L.map Node.hash).Nodup) →
      (∀ nd ∈ L, findNode t nd.hash = none) →
      reinsertChainF encode fuel t L = some t' →
      WF encode t' ∧
        (∀ h, findNode t' h = ((L.find? fun x => x.hash == h).or (findNode t h))) ∧
        (allNodes t').length = (allNodes t).length + L.length ∧
        (CountOK t → CountOK t') ∧
        ∃ m, t'.actualBucketLength = 2 ^ m * t.actualBucketLength := by
  intro fuel
  induction fuel with
  | zero =>
    intro _ L t t' wf _ _ _ hrun
    cases L with
    | nil =>
      simp only [reinsertChainF, Option.some.injEq] at hrun
      subst hrun
      exact ⟨wf, fun h => by simp, by simp, fun h => h, ⟨0, by simp⟩⟩
    | cons nd ns => simp [reinsertChainF] at hrun
  | succ f ihf =>
    intro IHall L t t' wf hkeys hnodup hfresh hrun
    cases L with
    | nil =>
      simp only [reinsertChainF, Option.some.injEq] at hrun
      subst hrun
      exact ⟨wf, fun h => by simp, by simp, fun h => h, ⟨0, by simp⟩⟩
    | cons nd L =>
      simp only [reinsertChainF] at hrun
      rcases ht1 : insertF encode f t nd.entry.Key nd.entry.Value with _ | t1
      · rw [ht1] at hrun; cases hrun
      · rw [ht1] at hrun
        have hkey : nd.hash = hashOf encode nd.entry.Key := hkeys nd (List.mem_cons_self _ _)
        have hnode : Node.mk (Entry.mk nd.entry.Key nd.entry.Value) (hashOf encode nd.entry.Key) = nd := by
          rw [← hkey]
        have out1 := IHall f (Nat.lt_succ_self f) t nd.entry.Key nd.entry.Value t1 wf ht1
        rw [hnode] at out1
        have hfreshhead : findNode t nd.hash = none := hfresh nd (List.mem_cons_self _ _)
        have hnodup' : (L.map Node.hash).Nodup := by
          simp only [List.map_cons, List.nodup_cons] at hnodup
          exact hnodup.2
        have hheadnotin : nd.hash ∉ L.map Node.hash := by
          simp only [List.map_cons, List.nodup_cons] at hnodup
          exact hnodup.1
        have hfresh1 : ∀ x ∈ L, findNode t1 x.hash = none := by
          intro x hx
          rw [out1.upd]
          have hxne : x.hash ≠ nd.hash := by
            intro hcontra
            exact hheadnotin (hcontra ▸ List.mem_map_of_mem _ hx)
          rw [if_neg hxne]
          exact hfresh x (List.mem_cons_of_mem _ hx)
        obtain ⟨wf', hfind', hlen', hcok', m', hm'⟩ :=
          ihf (fun g hg => IHall g (by omega)) L t1 t' out1.wf
            (fun x hx => hkeys x (List.mem_cons_of_mem _ hx)) hnodup' hfresh1 hrun
        refine ⟨wf', ?_, ?_, ?_, ?_⟩
        · intro h
          rw [hfind' h, out1.upd h]
          by_cases hh : h = nd.hash
          · subst hh
            rw [List.find?_cons_of_pos _ (by simp), if_pos rfl, find?_hash_eq_none hheadnotin]
            rfl
          · rw [if_neg hh, List.find?_cons_of_neg _ (by simpa using Ne.symm hh)]
        · rw [hlen', out1.count, hfreshhead]
          simp [Nat.add_assoc, Nat.add_comm 1]
        · exact fun hok => hcok' (out1.countok hok)
        · obtain ⟨m1, hm1⟩ := out1.grow
          exact ⟨m' + m1, by rw [hm', hm1, pow_add, mul_assoc]⟩

end GoHashTable

namespace GoHashTable

variable {K V : Type}

/-- The outer `Resize` loop accumulates all snapshot nodes, one chain at a
time. -/
lemma reinsertChainsF_spec {encode : K → List Nat} :
    ∀ fuel : Nat, (∀ g, g < fuel → InsP (K := K) (V := V) encode g) →
    ∀ (chains : List (List (Node K V))) (t t' : HashTable K V), WF encode t →
      (∀ nd ∈ chains.flatten, nd.hash = hashOf encode nd.entry.Key) →
      ((chains.flatten.map Node.hash).Nodup) →
      (∀ nd ∈ chains.flatten, findNode t nd.hash = none) →
      reinsertChainsF encode fuel t chains = some t' →
      WF encode t' ∧
        (∀ h, findNode t' h = ((chains.flatten.find? fun x => x.hash == h).or (findNode t h))) ∧
        (allNodes t').length = (allNodes t).length + chains.flatten.length ∧
        (CountOK t → CountOK t') ∧
        ∃ m, t'.actualBucketLength = 2 ^ m * t.actualBucketLength := by
  intro fuel
  induction fuel with
  | zero =>
    intro _ chains t t' wf _ _ _ hrun
    cases chains with
    | nil =>
      simp only [reinsertChainsF, Option.some.injEq] at hrun
      subst hrun
      exact ⟨wf, fun h => by simp, by simp, fun h => h, ⟨0, by simp⟩⟩
    | cons c rest => simp [reinsertChainsF] at hrun
  | succ f ihf =>
    intro IHall chains t t' wf hkeys hnodup hfresh hrun
    cases chains with
    | nil =>
      simp only [reinsertChainsF, Option.some.injEq] at hrun
      subst hrun
      exact ⟨wf, fun h => by simp, by simp, fun h => h, ⟨0, by simp⟩⟩
    | cons c rest =>
      simp only [reinsertChainsF] at hrun
      rcases ht1 : reinsertChainF encode f t c with _ | t1
      · rw [ht1] at hrun; cases hrun
      · rw [ht1] at hrun
        have hsplit : (c :: rest).flatten = c ++ rest.flatten := rfl
        rw [hsplit] at hkeys hnodup hfresh
        simp only [List.map_append] at hnodup
        rw [List.nodup_append] at hnodup
        obtain ⟨hnodc, hnodrest, hdisj⟩ := hnodup
        obtain ⟨wf1, hfind1, hlen1, hcok1, m1, hm1⟩ :=
          reinsertChainF_spec f (fun g hg => IHall g (by omega)) c t t1 wf
            (fun nd hnd => hkeys nd (List.mem_append_left _ hnd)) hnodc
            (fun nd hnd => hfresh nd (List.mem_append_left _ hnd)) ht1
        have hfresh1 : ∀ nd ∈ rest.flatten, findNode t1 nd.hash = none := by
          intro nd hnd
          rw [hfind1]
          have hnotc : (c.find? fun x => x.hash == nd.hash) = none := by
            refine find?_hash_eq_none ?_
            intro hmem
            exact hdisj hmem (List.mem_map_of_mem _ hnd)
          rw [hnotc, hfresh nd (List.mem_append_right _ hnd)]
          rfl
        obtain ⟨wf', hfind', hlen', hcok', m', hm'⟩ :=
          ihf (fun g hg => IHall g (by omega)) rest t1 t' wf1
            (fun nd hnd => hkeys nd (List.mem_append_right _ hnd)) hnodrest hfresh1 hrun
        refine ⟨wf', ?_, ?_, fun hok => hcok' (hcok1 hok), ?_⟩
        · intro h
          rw [hfind' h, hfind1 h, hsplit, List.find?_append]
          rcases hfc : c.find? fun x => x.hash == h with _ | x
          · rw [hfc, Option.none_or, Option.none_or]
          · have hxh : x.hash = h := by simpa using List.find?_some hfc
            have hrestnone : (rest.flatten.find? fun y => y.hash == h) = none := by
              refine find?_hash_eq_none ?_
              intro hmem
              refine hdisj ?_ hmem
              rw [← hxh]
              exact List.mem_map_of_mem _ (List.mem_of_find?_eq_some hfc)
            rw [hrestnone]
            simp
        · rw [hlen', hlen1, hsplit, List.length_append]
          omega
        · exact ⟨m' + m1, by rw [hm', hm1, pow_add, mul_assoc]⟩

end GoHashTable

namespace GoHashTable

variable {K V : Type}

lemma getElem?_replicate_nil {α : Type} {n i : Nat} {c : List α}
    (hc : (List.replicate n ([] : List α))[i]? = some c) : c = [] := by
  rw [List.getElem?_replicate] at hc
  by_cases h : i < n
  · rw [if_pos h] at hc
    exact (Option.some.injEq _ _).mp hc |>.symm
  · rw [if_neg h] at hc
    cases hc

/-- A completed automatic `Resize` preserves the invariant and every hash
lookup, rebuilds an accurate `sizeItems`, and multiplies the capacity by at
least 2. -/
lemma resizeF_spec {encode : K → List Nat} (fuel : Nat)
    (IH : ∀ g, g < fuel → InsP (K := K) (V := V) encode g) :
    ∀ (t t' : HashTable K V), WF encode t → allNodes t ≠ [] →
      resizeF encode fuel t = some t' →
      WF encode t' ∧ (∀ h, findNode t' h = findNode t h) ∧
        (allNodes t').length = (allNodes t).length ∧ CountOK t' ∧
        ∃ m, 1 ≤ m ∧ t'.actualBucketLength = 2 ^ m * t.actualBucketLength := by
  intro t t' wf hne hrun
  match fuel with
  | 0 => simp [resizeF] at hrun
  | g + 1 =>
    simp only [resizeF] at hrun
    by_cases hz : t.actualBucketLength * 2 % 2 ^ 32 = 0
    · rw [hz, reinsertChainsF_none_of_nil t.buckets g _ (by simp [resetBucket]) hne] at hrun
      cases hrun
    · obtain ⟨kk, hk⟩ := wf.cap_pow
      have h2 : t.actualBucketLength * 2 = 2 ^ (kk + 1) := by
        rw [hk, pow_succ]
      have hlt : 2 ^ (kk + 1) < 2 ^ 32 := by
        by_contra hge
        push_neg at hge
        have hdvd : (2 : Nat) ^ 32 ∣ 2 ^ (kk + 1) :=
          pow_dvd_pow 2 ((Nat.pow_le_pow_iff_right (by norm_num)).mp hge)
        exact hz (by rw [h2]; omega)
      have hcap' : t.actualBucketLength * 2 % 2 ^ 32 = 2 * t.actualBucketLength := by
        rw [h2, Nat.mod_eq_of_lt hlt, ← h2, mul_comm]
      have hwf0 : WF encode (resetBucket t (t.actualBucketLength * 2 % 2 ^ 32)) := by
        refine ⟨wf.hb, by simp [resetBucket], ?_, ?_, ?_, ?_, ?_, ?_⟩
        · show 0 < t.actualBucketLength * 2 % 2 ^ 32
          omega
        · show t.actualBucketLength * 2 % 2 ^ 32 ≤ 2 ^ 32
          omega
        · refine ⟨kk + 1, ?_⟩
          rw [show (resetBucket t (t.actualBucketLength * 2 % 2 ^ 32)).actualBucketLength =
            t.actualBucketLength * 2 % 2 ^ 32 from rfl, hcap', hk, pow_succ]
          ring
        · intro i c hc nd hnd
          rw [show (resetBucket t (t.actualBucketLength * 2 % 2 ^ 32)).buckets =
            List.replicate (t.actualBucketLength * 2 % 2 ^ 32) [] from rfl] at hc
          rw [getElem?_replicate_nil hc] at hnd
          cases hnd
        · intro i c hc
          rw [show (resetBucket t (t.actualBucketLength * 2 % 2 ^ 32)).buckets =
            List.replicate (t.actualBucketLength * 2 % 2 ^ 32) [] from rfl] at hc
          rw [getElem?_replicate_nil hc]
          simp
        · intro i c hc nd hnd
          rw [show (resetBucket t (t.actualBucketLength * 2 % 2 ^ 32)).buckets =
            List.replicate (t.actualBucketLength * 2 % 2 ^ 32) [] from rfl] at hc
          rw [getElem?_replicate_nil hc] at hnd
          cases hnd
      have hnodes0 : allNodes (resetBucket t (t.actualBucketLength * 2 % 2 ^ 32)) = [] := by
        unfold allNodes
        exact flatten_replicate_nil _
      have hfind0 : ∀ h, findNode (resetBucket t (t.actualBucketLength * 2 % 2 ^ 32)) h = none := by
        intro h
        unfold findNode
        rw [hnodes0]
        rfl
      have hcok0 : CountOK (resetBucket t (t.actualBucketLength * 2 % 2 ^ 32)) := by
        unfold CountOK
        rw [hnodes0]
        rfl
      obtain ⟨wf', hfind', hlen', hcok', m', hm'⟩ :=
        reinsertChainsF_spec g (fun g' hg' => IH g' (by omega)) t.buckets _ t' hwf0
          (fun nd hnd => by
            rcases List.mem_flatten.mp hnd with ⟨l, hl, hndl⟩
            rcases List.mem_iff_getElem?.mp hl with ⟨j, hj⟩
            exact wf.hkey j l hj nd hndl)
          (nodup_flatten_map_hash t.actualBucketLength t.buckets 0
            (fun i c hc nd hnd => by rw [wf.place i c hc nd hnd]; omega)
            wf.chain_nodup)
          (fun nd _ => hfind0 nd.hash) hrun
      refine ⟨wf', ?_, ?_, hcok' hcok0, ?_⟩
      · intro h
        rw [hfind' h, hfind0 h, Option.or_none]
        rfl
      · rw [hlen', hnodes0]
        simp [allNodes]
      · refine ⟨m' + 1, by omega, ?_⟩
        rw [hm']
        rw [show (resetBucket t (t.actualBucketLength * 2 % 2 ^ 32)).actualBucketLength =
          t.actualBucketLength * 2 % 2 ^ 32 from rfl, hcap', pow_succ]
        ring

end GoHashTable

namespace GoHashTable

variable {K V : Type}

lemma insertNodeF_spec {encode : K → List Nat} (fuel : Nat)
    (IH : ∀ g, g < fuel → InsP (K := K) (V := V) encode g) :
    ∀ (t : HashTable K V) (n : Node K V) (t' : HashTable K V), WF encode t →
      n.hash = hashOf encode n.entry.Key →
      insertNodeF encode fuel t n (n.hash % t.actualBucketLength) = some t' →
      InsertOutcome encode t n t' ∧
        (∀ t1, insertBaseF t n (n.hash % t.actualBucketLength) = some t1 →
          isFull t1 = true → 2 * t.actualBucketLength ≤ t'.actualBucketLength) := by
  intro t n t' wf hk hrun
  match fuel with
  | 0 => simp [insertNodeF] at hrun
  | g + 1 =>
    simp only [insertNodeF] at hrun
    rcases hbase : insertBaseF t n (n.hash % t.actualBucketLength) with _ | t1
    · rw [hbase] at hrun; cases hrun
    · rw [hbase] at hrun
      have hrun' : (if isFull t1 = true then resizeF encode g t1 else some t1) = some t' := hrun
      obtain ⟨out1, hcapeq⟩ := insertBaseF_spec wf hk hbase
      by_cases hfull : isFull t1
      · rw [if_pos hfull] at hrun'
        have hne1 : allNodes t1 ≠ [] := by
          have hf : findNode t1 n.hash = some n := by rw [out1.upd n.hash, if_pos rfl]
          unfold findNode at hf
          exact List.ne_nil_of_mem (List.mem_of_find?_eq_some hf)
        obtain ⟨wf', hfind', hlen', hcok', m, hm1, hm⟩ :=
          resizeF_spec g (fun g' hg' => IH g' (by omega)) t1 t' out1.wf hne1 hrun'
        constructor
        · refine ⟨wf', ?_, ?_, fun _ => hcok', ⟨m, by rw [hm, hcapeq]⟩⟩
          · intro h
            rw [hfind' h, out1.upd h]
          · rw [hlen', out1.count]
        · intro t1' hbase' _
          rw [hm, hcapeq]
          have h2m : 2 ≤ 2 ^ m :=
            le_trans (by norm_num) (Nat.pow_le_pow_right (by norm_num) hm1)
          exact Nat.mul_le_mul_right _ h2m
      · rw [if_neg hfull] at hrun'
        simp only [Option.some.injEq] at hrun'
        subst hrun'
        refine ⟨out1, ?_⟩
        intro t1' hbase' hfull'
        simp only [Option.some.injEq] at hbase'
        rw [← hbase'] at hfull'
        exact absurd hfull' (by simp [hfull])

/-- Main induction: every completed `Insert` satisfies the insertion
outcome specification, at every fuel. -/
lemma insertF_spec {encode : K → List Nat} :
    ∀ fuel : Nat, InsP (K := K) (V := V) encode fuel := by
  intro fuel
  induction fuel using Nat.strong_induction_on with
  | _ fuel IH =>
    intro t k v t' wf hrun
    match fuel with
    | 0 => simp [insertF] at hrun
    | g + 1 =>
      simp only [insertF, HashF, generateHash] at hrun
      rw [hasher_reset_eq t wf.hb, wf.hb] at hrun
      rw [show fnvWrite fnvOffset (encode k) = hashOf encode k from rfl] at hrun
      rw [generateIndex_eq t wf.pos wf.cap_le] at hrun
      exact (insertNodeF_spec g (fun g' hg' => IH g' (by omega)) t
        { entry := { Key := k, Value := v }, hash := hashOf encode k } t' wf rfl hrun).1

/-- The resize-trigger consequence of one completed `Insert`: if the base
insertion left the table over-full, the final capacity is at least double. -/
lemma insertF_trigger {encode : K → List Nat} {g : Nat} {t t1 t' : HashTable K V}
    {k : K} {v : V} (wf : WF encode t)
    (hrun : insertF encode (g + 1) t k v = some t')
    (hbase : insertBaseF t { entry := { Key := k, Value := v }, hash := hashOf encode k }
      (hashOf encode k % t.actualBucketLength) = some t1)
    (hfull : isFull t1 = true) :
    2 * t.actualBucketLength ≤ t'.actualBucketLength := by
  simp only [insertF, HashF, generateHash] at hrun
  rw [hasher_reset_eq t wf.hb, wf.hb] at hrun
  rw [show fnvWrite fnvOffset (encode k) = hashOf encode k from rfl] at hrun
  rw [generateIndex_eq t wf.pos wf.cap_le] at hrun
  exact (insertNodeF_spec g (fun g' hg' => insertF_spec g') t
    { entry := { Key := k, Value := v }, hash := hashOf encode k } t' wf rfl hrun).2 t1 hbase hfull

end GoHashTable

namespace GoHashTable

variable {K V : Type}

lemma WF_new {encode : K → List Nat} : WF encode (NewHashTable : HashTable K V) := by
  refine ⟨rfl, rfl, ?_, ?_, ⟨1, rfl⟩, ?_, ?_, ?_⟩
  · show 0 < 2
    norm_num
  · show 2 ≤ 2 ^ 32
    norm_num
  · intro i c hc nd hnd
    rw [show (NewHashTable : HashTable K V).buckets = List.replicate 2 [] from rfl] at hc
    rw [getElem?_replicate_nil hc] at hnd
    cases hnd
  · intro i c hc
    rw [show (NewHashTable : HashTable K V).buckets = List.replicate 2 [] from rfl] at hc
    rw [getElem?_replicate_nil hc]
    simp
  · intro i c hc nd hnd
    rw [show (NewHashTable : HashTable K V).buckets = List.replicate 2 [] from rfl] at hc
    rw [getElem?_replicate_nil hc] at hnd
    cases hnd

lemma CountOK_new : CountOK (NewHashTable : HashTable K V) := rfl

/-- Full effect of a completed `Delete` on a well-formed table. -/
lemma deleteF_spec {encode : K → List Nat} {t t' : HashTable K V} {key : K}
    (wf : WF encode t) (hrun : deleteF encode t key = some t') :
    WF encode t' ∧ t'.actualBucketLength = t.actualBucketLength ∧
      t'.sizeItems = t.sizeItems ∧
      t'.actualBucketSize = (t.actualBucketSize + (2 ^ 32 - 1)) % 2 ^ 32 ∧
      t'.buckets = t.buckets.set (hashOf encode key % t.actualBucketLength) [] := by
  unfold deleteF at hrun
  simp only [HashF, generateHash] at hrun
  rw [hasher_reset_eq t wf.hb, wf.hb] at hrun
  rw [show fnvWrite fnvOffset (encode key) = hashOf encode key from rfl] at hrun
  rw [generateIndex_eq t wf.pos wf.cap_le] at hrun
  have hlt : hashOf encode key % t.actualBucketLength < t.buckets.length := by
    rw [wf.len]
    exact Nat.mod_lt _ wf.pos
  rw [if_pos hlt] at hrun
  simp only [Option.some.injEq] at hrun
  subst hrun
  have hget : ∀ j : Nat,
      (t.buckets.set (hashOf encode key % t.actualBucketLength) [])[j]? =
        if hashOf encode key % t.actualBucketLength = j then some []
        else t.buckets[j]? := by
    intro j
    rw [List.getElem?_set]
    by_cases hij : hashOf encode key % t.actualBucketLength = j
    · rw [if_pos hij, if_pos hlt, if_pos hij]
    · rw [if_neg hij, if_neg hij]
  refine ⟨⟨rfl, ?_, wf.pos, wf.cap_le, wf.cap_pow, ?_, ?_, ?_⟩, rfl, rfl, rfl, rfl⟩
  · show (t.buckets.set (hashOf encode key % t.actualBucketLength) []).length =
      t.actualBucketLength
    rw [List.length_set]
    exact wf.len
  · intro i c hc nd hnd
    have hc' : (t.buckets.set (hashOf encode key % t.actualBucketLength) [])[i]? = some c := hc
    rw [hget i] at hc'
    by_cases hij : hashOf encode key % t.actualBucketLength = i
    · rw [if_pos hij] at hc'
      cases hc'
      cases hnd
    · rw [if_neg hij] at hc'
      exact wf.place i c hc' nd hnd
  · intro i c hc
    have hc' : (t.buckets.set (hashOf encode key % t.actualBucketLength) [])[i]? = some c := hc
    rw [hget i] at hc'
    by_cases hij : hashOf encode key % t.actualBucketLength = i
    · rw [if_pos hij] at hc'
      cases hc'
      simp
    · rw [if_neg hij] at hc'
      exact wf.chain_nodup i c hc'
  · intro i c hc nd hnd
    have hc' : (t.buckets.set (hashOf encode key % t.actualBucketLength) [])[i]? = some c := hc
    rw [hget i] at hc'
    by_cases hij : hashOf encode key % t.actualBucketLength = i
    · rw [if_pos hij] at hc'
      cases hc'
      cases hnd
    · rw [if_neg hij] at hc'
      exact wf.hkey i c hc' nd hnd

lemma reachable_wf {encode : K → List Nat} {t : HashTable K V}
    (hr : Reachable encode t) : WF encode t := by
  induction hr with
  | new => exact WF_new
  | insert t0 t' fuel k v _ hrun ih => exact (insertF_spec fuel t0 k v t' ih hrun).wf
  | delete t0 t' k _ hrun ih => exact (deleteF_spec ih hrun).1

lemma allNodes_hkey {encode : K → List Nat} {t : HashTable K V} (wf : WF encode t) :
    ∀ nd ∈ allNodes t, nd.hash = hashOf encode nd.entry.Key := by
  intro nd hnd
  rcases List.mem_flatten.mp hnd with ⟨l, hl, hndl⟩
  rcases List.mem_iff_getElem?.mp hl with ⟨j, hj⟩
  exact wf.hkey j l hj nd hndl

lemma allNodes_hash_nodup {encode : K → List Nat} {t : HashTable K V} (wf : WF encode t) :
    ((allNodes t).map Node.hash).Nodup :=
  nodup_flatten_map_hash t.actualBucketLength t.buckets 0
    (fun i c hc nd hnd => by rw [wf.place i c hc nd hnd]; omega)
    wf.chain_nodup

lemma iterChain_eq_map : ∀ c : List (Node K V), iterChain c = c.map Node.entry := by
  intro c
  induction c with
  | nil => rfl
  | cons nd rest ih => simp [iterChain, ih]

lemma iterBuckets_eq_map :
    ∀ bs : List (List (Node K V)), iterBuckets bs = bs.flatten.map Node.entry := by
  intro bs
  induction bs with
  | nil => rfl
  | cons c rest ih => simp [iterBuckets, iterChain_eq_map, ih]

lemma Iter_eq_map (t : HashTable K V) : Iter t = (allNodes t).map Node.entry :=
  iterBuckets_eq_map t.buckets

end GoHashTable

namespace GoHashTable

variable {K V : Type}

/-- C1: for every key `k` and value `v`, immediately after `Insert(k, v)` on
any reachable table state, `Get(k)` returns `v` — across the empty-bucket,
overwrite, append, and automatic-resize paths of `insertNode`. -/
theorem insert_get_roundtrip {encode : K → List Nat} {t t' : HashTable K V}
    {fuel : Nat} {k : K} {v : V} (hreach : Reachable encode t)
    (hrun : insertF encode fuel t k v = some t') :
    getF encode t' k = some v := by
  have wf := reachable_wf hreach
  have out := insertF_spec fuel t k v t' wf hrun
  rw [getF_eq_findNode out.wf k, out.upd (hashOf encode k), if_pos rfl]
  rfl

theorem insert_get_roundtrip_witness : getF encodeNat tblC 5 = some 7 := by
  have hrun : insertF encodeNat 20 NewHashTable 5 7 = some tblC := rfl
  exact insert_get_roundtrip Reachable.new hrun

/-- C2: whenever an `Insert` leaves the base-inserted table over-full
(`occupiedBuckets > capacity/2`), the triggered `Resize` at least doubles the
capacity, and `Get` still succeeds with the same value for every
(non-hash-colliding) key present before the resize. -/
theorem growth_trigger_doubles_and_preserves {encode : K → List Nat}
    {t t1 t' : HashTable K V} {k : K} {v : V} {fuel : Nat} (wf : WF encode t)
    (hbase : insertBaseF t { entry := { Key := k, Value := v }, hash := hashOf encode k }
      (hashOf encode k % t.actualBucketLength) = some t1)
    (hfull : isFull t1 = true)
    (hrun : insertF encode fuel t k v = some t') :
    2 * t.actualBucketLength ≤ t'.actualBucketLength ∧
      ∀ (k' : K) (w : V), hashOf encode k' ≠ hashOf encode k →
        getF encode t k' = some w → getF encode t' k' = some w := by
  rcases fuel with _ | g
  · simp [insertF] at hrun
  · constructor
    · exact insertF_trigger wf hrun hbase hfull
    · intro k' w hne hget
      have out := insertF_spec (g + 1) t k v t' wf hrun
      rw [getF_eq_findNode out.wf k', out.upd (hashOf encode k'), if_neg hne]
      rw [getF_eq_findNode wf k'] at hget
      exact hget

theorem growth_trigger_witness :
    2 * tblA.actualBucketLength ≤ tblB.actualBucketLength ∧
      getF encodeNat tblB 0 = some 10 := by
  have wf : WF encodeNat tblA :=
    reachable_wf (Reachable.insert NewHashTable tblA 20 0 10 Reachable.new rfl)
  have hbase : insertBaseF tblA
      { entry := { Key := (1 : Nat), Value := (20 : Nat) }, hash := hashOf encodeNat 1 }
      (hashOf encodeNat 1 % tblA.actualBucketLength) = some tblAB := rfl
  have hfull : isFull tblAB = true := rfl
  have hrun : insertF encodeNat 20 tblA 1 20 = some tblB := rfl
  have res := growth_trigger_doubles_and_preserves wf hbase hfull hrun
  exact ⟨res.1, res.2 0 10 (by decide) rfl⟩

/-- C3: on a fresh table, `Insert(k, v1)` then `Insert(k, v2)` leaves
`Size() = 1` and `Get(k) = v2`: re-insertion overwrites in place without
growing the item count. -/
theorem insert_overwrite_size_get {encode : K → List Nat} {fuel1 fuel2 : Nat} {k : K}
    {v1 v2 : V} {t1 t2 : HashTable K V}
    (h1 : insertF encode fuel1 (NewHashTable : HashTable K V) k v1 = some t1)
    (h2 : insertF encode fuel2 t1 k v2 = some t2) :
    Size t2 = 1 ∧ getF encode t2 k = some v2 := by
  have out1 := insertF_spec fuel1 NewHashTable k v1 t1 WF_new h1
  have out2 := insertF_spec fuel2 t1 k v2 t2 out1.wf h2
  constructor
  · have hok2 : CountOK t2 := out2.countok (out1.countok CountOK_new)
    have hfound : (findNode t1 (hashOf encode k)).isSome = true := by
      rw [out1.upd (hashOf encode k), if_pos rfl]
      rfl
    have hlen2 : (allNodes t2).length = (allNodes t1).length := by
      rw [out2.count, hfound]
      simp
    have hnew : findNode (NewHashTable : HashTable K V) (hashOf encode k) = none := rfl
    have hlen1 : (allNodes t1).length = 1 := by
      rw [out1.count, hnew]
      rfl
    unfold Size
    rw [hok2, hlen2, hlen1]
    norm_num
  · rw [getF_eq_findNode out2.wf k, out2.upd (hashOf encode k), if_pos rfl]
    rfl

theorem insert_overwrite_size_get_witness :
    Size tblE = 1 ∧ getF encodeNat tblE 5 = some 200 := by
  have h1 : insertF encodeNat 20 (NewHashTable : HashTable Nat Nat) 5 100 = some tblD := rfl
  have h2 : insertF encodeNat 20 tblD 5 200 = some tblE := rfl
  exact insert_overwrite_size_get h1 h2

end GoHashTable

namespace GoHashTable

variable {K V : Type}

/-- C4: `Delete(k)` unconditionally clears the entire bucket slot at `k`'s
index, performs the `uint32` decrement of `occupiedBuckets` (by exactly one,
with wraparound), and leaves `sizeItems` (the value `Size` returns)
unchanged. -/
theorem delete_clears_bucket {encode : K → List Nat} {t t' : HashTable K V} {key : K}
    (hrun : deleteF encode t key = some t') :
    t'.buckets = t.buckets.set
      (fnvWrite t.hasherState (encode key) % t.actualBucketLength % 2 ^ 32) [] ∧
    t'.buckets[fnvWrite t.hasherState (encode key) % t.actualBucketLength % 2 ^ 32]? =
      some [] ∧
    t'.actualBucketSize = (t.actualBucketSize + (2 ^ 32 - 1)) % 2 ^ 32 ∧
    (0 < t.actualBucketSize → t.actualBucketSize < 2 ^ 32 →
      t'.actualBucketSize = t.actualBucketSize - 1) ∧
    Size t' = Size t := by
  simp only [deleteF, HashF, generateHash, generateIndex] at hrun
  split at hrun
  case isTrue hlt =>
    simp only [Option.some.injEq] at hrun
    subst hrun
    refine ⟨rfl, ?_, rfl, ?_, ?_⟩
    · exact List.getElem?_set_self hlt
    · intro h1 h2
      show (t.actualBucketSize + (2 ^ 32 - 1)) % 2 ^ 32 = t.actualBucketSize - 1
      have hM : (2 : Nat) ^ 32 = 4294967296 := by norm_num
      rw [hM] at h2 ⊢
      omega
    · unfold Size
      rfl
  case isFalse => cases hrun

theorem delete_clears_bucket_witness :
    tblDel.actualBucketSize = (tblC.actualBucketSize + (2 ^ 32 - 1)) % 2 ^ 32 ∧
      Size tblDel = Size tblC := by
  have hrun : deleteF encodeNat tblC 5 = some tblDel := rfl
  exact ⟨(delete_clears_bucket hrun).2.2.1, (delete_clears_bucket hrun).2.2.2.2⟩

/-- C5: `Get` on a key whose bucket chain holds no node with the key's hash
(in particular on an empty table, or any never-inserted key) never returns
normally: the embedding returns `none`, modelling the `key not found`
panic that aborts the call. -/
theorem get_missing_key_fails {encode : K → List Nat} {t : HashTable K V} {key : K}
    (habsent : ∀ chain : List (Node K V),
      t.buckets[fnvWrite t.hasherState (encode key) % t.actualBucketLength % 2 ^ 32]? =
        some chain →
      ∀ nd ∈ chain, nd.hash ≠ fnvWrite t.hasherState (encode key)) :
    getF encode t key = none := by
  show (match t.buckets[fnvWrite t.hasherState (encode key) % t.actualBucketLength % 2 ^ 32]? with
    | none => none
    | some chain =>
      (chain.find? fun nd => nd.hash == fnvWrite t.hasherState (encode key)).map
        fun nd => nd.entry.Value) = (none : Option V)
  rcases hb : t.buckets[fnvWrite t.hasherState (encode key) % t.actualBucketLength % 2 ^ 32]?
    with _ | chain
  · rfl
  · have hnone :
        (chain.find? fun nd => nd.hash == fnvWrite t.hasherState (encode key)) = none := by
      rw [List.find?_eq_none]
      intro x hx
      simpa using habsent chain hb x hx
    show ((chain.find? fun nd => nd.hash == fnvWrite t.hasherState (encode key)).map
      fun nd => nd.entry.Value) = none
    rw [hnone]
    rfl

theorem get_missing_key_fails_witness :
    getF encodeNat (NewHashTable : HashTable Nat Nat) 0 = none :=
  get_missing_key_fails (fun chain hchain nd hnd _ => by
    rw [getElem?_replicate_nil hchain] at hnd
    cases hnd)

/-- C6 counterexample: after `Insert(1, 10)` then `Delete 1` on a fresh
table, `Size` still reports 1 while no node is reachable in any chain, so
invariant 4 (`itemCount` equals the number of reachable nodes) does not
survive every public operation. -/
theorem delete_breaks_item_count_invariant :
    Size tblFdel = 1 ∧ (allNodes tblFdel).length = 0 ∧ ¬ CountOK tblFdel := by
  refine ⟨rfl, rfl, ?_⟩
  intro h
  unfold CountOK at h
  exact absurd h (by decide)

/-- C6 amended: invariant 4 holds at `uint32` precision after every
completed `Insert` (including its automatic `Resize`) when it held before,
and `Get` does not change the state; `Delete` breaks it (see the
counterexample). -/
theorem insert_preserves_item_count_invariant {encode : K → List Nat}
    {t t' : HashTable K V} {fuel : Nat} {k : K} {v : V} (wf : WF encode t)
    (hok : CountOK t) (hrun : insertF encode fuel t k v = some t') : CountOK t' :=
  (insertF_spec fuel t k v t' wf hrun).countok hok

theorem insert_preserves_item_count_invariant_witness : CountOK tblF := by
  have hrun : insertF encodeNat 20 NewHashTable 1 10 = some tblF := rfl
  exact insert_preserves_item_count_invariant WF_new CountOK_new hrun

/-- C7: on a well-formed table, the `Iter` sequence is finite and yields one
entry per stored node, in bucket-array then chain order (by construction of
`Iter`); every yielded entry `Get`s back to its own value, the yielded keys
are pairwise distinct (exactly-once), and under invariant 4 the number of
yields matches `Size`. -/
theorem iter_complete {encode : K → List Nat} {t : HashTable K V} (wf : WF encode t) :
    (Iter t).length = (allNodes t).length ∧
      (∀ e ∈ Iter t, getF encode t e.Key = some e.Value) ∧
      ((Iter t).map Entry.Key).Nodup ∧
      (CountOK t → Size t = (Iter t).length % 2 ^ 32) := by
  have hmap := Iter_eq_map t
  refine ⟨by rw [hmap, List.length_map], ?_, ?_, ?_⟩
  · intro e he
    rw [hmap] at he
    rcases List.mem_map.mp he with ⟨nd, hnd, rfl⟩
    have hk := allNodes_hkey wf nd hnd
    rw [getF_eq_findNode wf, ← hk]
    unfold findNode
    rw [find?_hash_of_mem (allNodes t) nd hnd (allNodes_hash_nodup wf)]
    rfl
  · rw [hmap, List.map_map]
    have h1 : ((allNodes t).map Node.hash) =
        ((allNodes t).map (Entry.Key ∘ Node.entry)).map (hashOf encode) := by
      rw [List.map_map]
      exact List.map_congr_left fun nd hnd => allNodes_hkey wf nd hnd
    have h2 := allNodes_hash_nodup wf
    rw [h1] at h2
    exact h2.of_map
  · intro hok
    unfold Size
    rw [hok, hmap, List.length_map]

theorem iter_complete_witness :
    (Iter tblB).length = (allNodes tblB).length ∧ ((Iter tblB).map Entry.Key).Nodup := by
  have wf : WF encodeNat tblB :=
    reachable_wf (Reachable.insert tblA tblB 20 1 20
      (Reachable.insert NewHashTable tblA 20 0 10 Reachable.new rfl) rfl)
  exact ⟨(iter_complete wf).1, (iter_complete wf).2.2.1⟩

end GoHashTable

namespace GoHashTable

variable {K V : Type}

/-- One unfolding step of `reinsertChainsF` on a cons cell, given the
completed re-insertion of the head chain. -/
lemma reinsertChainsF_cons_step {encode : K → List Nat} {fuel : Nat}
    {t t1 : HashTable K V} {chain : List (Node K V)}
    {rest : List (List (Node K V))}
    (h : reinsertChainF encode fuel t chain = some t1) :
    reinsertChainsF encode (fuel + 1) t (chain :: rest) =
      reinsertChainsF encode fuel t1 rest := by
  simp only [reinsertChainsF]
  rw [h]

/-- `reinsertChainsF` on the empty chain list returns the table unchanged. -/
lemma reinsertChainsF_nil {encode : K → List Nat} {fuel : Nat}
    {t : HashTable K V} : reinsertChainsF encode fuel t [] = some t := by
  simp only [reinsertChainsF]

/-- One unfolding step of `insertF`: hash the key and delegate. -/
lemma insertF_step {encode : K → List Nat} {fuel : Nat}
    {t : HashTable K V} {key : K} {value : V} :
    insertF encode (fuel + 1) t key value =
      insertNodeF encode fuel { t with hasherState := fnvOffset }
        { entry := { Key := key, Value := value },
          hash := fnvWrite t.hasherState (encode key) }
        (fnvWrite t.hasherState (encode key) % t.actualBucketLength % 2 ^ 32) := by
  simp only [insertF, HashF, generateHash, generateIndex]

/-- One unfolding step of `insertNodeF` when the base insertion trips the
`isFull` test: the result is the resize's. -/
lemma insertNodeF_step_resize {encode : K → List Nat} {fuel : Nat}
    {t t1 : HashTable K V} {n : Node K V} {i : Nat}
    (h1 : insertBaseF t n i = some t1) (h2 : isFull t1 = true) :
    insertNodeF encode (fuel + 1) t n i = resizeF encode fuel t1 := by
  simp only [insertNodeF]
  rw [h1]
  show (if isFull t1 = true then resizeF encode fuel t1 else some t1) =
    resizeF encode fuel t1
  rw [if_pos h2]

/-- One unfolding step of `insertNodeF` when the base insertion does not
trip the `isFull` test. -/
lemma insertNodeF_step_plain {encode : K → List Nat} {fuel : Nat}
    {t t1 : HashTable K V} {n : Node K V} {i : Nat}
    (h1 : insertBaseF t n i = some t1) (h2 : isFull t1 = false) :
    insertNodeF encode (fuel + 1) t n i = some t1 := by
  simp only [insertNodeF]
  rw [h1]
  show (if isFull t1 = true then resizeF encode fuel t1 else some t1) = some t1
  rw [h2]
  simp

/-- One unfolding step of `resizeF`: reset to doubled capacity and re-insert
the snapshot chains. -/
lemma resizeF_step {encode : K → List Nat} {fuel : Nat}
    {t : HashTable K V} :
    resizeF encode (fuel + 1) t =
      reinsertChainsF encode fuel
        (resetBucket t (t.actualBucketLength * 2 % 2 ^ 32)) t.buckets := by
  simp only [resizeF]

/-- One step of the insertion loop: a completed insert advances `insertAllF`
to the remaining pairs. -/
lemma insertAllF_cons_step {encode : K → List Nat} {fuel : Nat}
    {t t1 : HashTable K V} {k : K} {v : V} {rest : List (K × V)}
    (h : insertF encode fuel t k v = some t1) :
    insertAllF encode fuel t ((k, v) :: rest) = insertAllF encode fuel t1 rest := by
  show (match insertF encode fuel t k v with
    | none => none
    | some t2 => insertAllF encode fuel t2 rest) = insertAllF encode fuel t1 rest
  rw [h]

set_option maxHeartbeats 4000000 in
/-- C8: inserting the 20 distinct string keys `"0"` … `"19"` into a fresh
table (capacity 2) leaves `Size() = 20` and a capacity of at least 32 (the
run ends at capacity 64 under the spec-modelled key encoding). -/
theorem twenty_keys_scenario :
    ((insertAllF encodeStr 100 (NewHashTable : HashTable String String) pairs20).map
      fun t => (Size t, decide (32 ≤ t.actualBucketLength))) = some (20, true) := by
  have e1 : insertF encodeStr 100 (NewHashTable : HashTable String String)
      "0" "bar" = some step1 := rfl
  have e2 : insertF encodeStr 100 step1 "1" "bar" = some step2 := by
    have b1 : insertBaseF step1 { entry := { Key := "1", Value := "bar" }, hash := 12638153115695167470 } 0 = some rz2_pre := rfl
    have f1 : isFull rz2_pre = true := rfl
    show insertF encodeStr (99 + 1) step1 "1" "bar" = some step2
    rw [insertF_step]
    show insertNodeF encodeStr (98 + 1) step1 { entry := { Key := "1", Value := "bar" }, hash := 12638153115695167470 } 0 = some step2
    rw [insertNodeF_step_resize b1 f1]
    show resizeF encodeStr (97 + 1) rz2_pre = some step2
    rw [resizeF_step]
    show reinsertChainsF encodeStr 97 rz2_0
      [[{ entry := { Key := "1", Value := "bar" }, hash := 12638153115695167470 }],
      [{ entry := { Key := "0", Value := "bar" }, hash := 12638153115695167471 }]] = some step2
    have d1 : reinsertChainF encodeStr 96 rz2_0 [{ entry := { Key := "1", Value := "bar" }, hash := 12638153115695167470 }] = some rz2_1 := rfl
    rw [reinsertChainsF_cons_step d1]
    have d2 : reinsertChainF encodeStr 95 rz2_1 [{ entry := { Key := "0", Value := "bar" }, hash := 12638153115695167471 }] = some step2 := rfl
    rw [reinsertChainsF_cons_step d2]
    exact reinsertChainsF_nil
  have e3 : insertF encodeStr 100 step2 "2" "bar" = some step3 := by
    have b1 : insertBaseF step2 { entry := { Key := "2", Value := "bar" }, hash := 12638153115695167469 } 1 = some rz3_pre := rfl
    have f1 : isFull rz3_pre = true := rfl
    show insertF encodeStr (99 + 1) step2 "2" "bar" = some step3
    rw [insertF_step]
    show insertNodeF encodeStr (98 + 1) step2 { entry := { Key := "2", Value := "bar" }, hash := 12638153115695167469 } 1 = some step3
    rw [insertNodeF_step_resize b1 f1]
    show resizeF encodeStr (97 + 1) rz3_pre = some step3
    rw [resizeF_step]
    show reinsertChainsF encodeStr 97 rz3_0
      [[],
      [{ entry := { Key := "2", Value := "bar" }, hash := 12638153115695167469 }],
      [{ entry := { Key := "1", Value := "bar" }, hash := 12638153115695167470 }],
      [{ entry := { Key := "0", Value := "bar" }, hash := 12638153115695167471 }]] = some step3
    have d1 : reinsertChainF encodeStr 96 rz3_0 [] = some rz3_0 := rfl
    rw [reinsertChainsF_cons_step d1]
    have d2 : reinsertChainF encodeStr 95 rz3_0 [{ entry := { Key := "2", Value := "bar" }, hash := 12638153115695167469 }] = some rz3_2 := rfl
    rw [reinsertChainsF_cons_step d2]
    have d3 : reinsertChainF encodeStr 94 rz3_2 [{ entry := { Key := "1", Value := "bar" }, hash := 12638153115695167470 }] = some rz3_3 := rfl
    rw [reinsertChainsF_cons_step d3]
    have d4 : reinsertChainF encodeStr 93 rz3_3 [{ entry := { Key := "0", Value := "bar" }, hash := 12638153115695167471 }] = some step3 := rfl
    rw [reinsertChainsF_cons_step d4]
    exact reinsertChainsF_nil
  have e4 : insertF encodeStr 100 step3 "3" "bar" = some step4 := rfl
  have e5 : insertF encodeStr 100 step4 "4" "bar" = some step5 := by
    have b1 : insertBaseF step4 { entry := { Key := "4", Value := "bar" }, hash := 12638153115695167467 } 3 = some rz5_pre := rfl
    have f1 : isFull rz5_pre = true := rfl
    show insertF encodeStr (99 + 1) step4 "4" "bar" = some step5
    rw [insertF_step]
    show insertNodeF encodeStr (98 + 1) step4 { entry := { Key := "4", Value := "bar" }, hash := 12638153115695167467 } 3 = some step5
    rw [insertNodeF_step_resize b1 f1]
    show resizeF encodeStr (97 + 1) rz5_pre = some step5
    rw [resizeF_step]
    show reinsertChainsF encodeStr 97 rz5_0
      [[],
      [],
      [],
      [{ entry := { Key := "4", Value := "bar" }, hash := 12638153115695167467 }],
      [{ entry := { Key := "3", Value := "bar" }, hash := 12638153115695167468 }],
      [{ entry := { Key := "2", Value := "bar" }, hash := 12638153115695167469 }],
      [{ entry := { Key := "1", Value := "bar" }, hash := 12638153115695167470 }],
      [{ entry := { Key := "0", Value := "bar" }, hash := 12638153115695167471 }]] = some step5
    have d1 : reinsertChainF encodeStr 96 rz5_0 [] = some rz5_0 := rfl
    rw [reinsertChainsF_cons_step d1]
    have d2 : reinsertChainF encodeStr 95 rz5_0 [] = some rz5_0 := rfl
    rw [reinsertChainsF_cons_step d2]
    have d3 : reinsertChainF encodeStr 94 rz5_0 [] = some rz5_0 := rfl
    rw [reinsertChainsF_cons_step d3]
    have d4 : reinsertChainF encodeStr 93 rz5_0 [{ entry := { Key := "4", Value := "bar" }, hash := 12638153115695167467 }] = some rz5_4 := rfl
    rw [reinsertChainsF_cons_step d4]
    have d5 : reinsertChainF encodeStr 92 rz5_4 [{ entry := { Key := "3", Value := "bar" }, hash := 12638153115695167468 }] = some rz5_5 := rfl
    rw [reinsertChainsF_cons_step d5]
    have d6 : reinsertChainF encodeStr 91 rz5_5 [{ entry := { Key := "2", Value := "bar" }, hash := 12638153115695167469 }] = some rz5_6 := rfl
    rw [reinsertChainsF_cons_step d6]
    have d7 : reinsertChainF encodeStr 90 rz5_6 [{ entry := { Key := "1", Value := "bar" }, hash := 12638153115695167470 }] = some rz5_7 := rfl
    rw [reinsertChainsF_cons_step d7]
    have d8 : reinsertChainF encodeStr 89 rz5_7 [{ entry := { Key := "0", Value := "bar" }, hash := 12638153115695167471 }] = some step5 := rfl
    rw [reinsertChainsF_cons_step d8]
    exact reinsertChainsF_nil
  have e6 : insertF encodeStr 100 step5 "5" "bar" = some step6 := rfl
  have e7 : insertF encodeStr 100 step6 "6" "bar" = some step7 := rfl
  have e8 : insertF encodeStr 100 step7 "7" "bar" = some step8 := rfl
  have e9 : insertF encodeStr 100 step8 "8" "bar" = some step9 := by
    have b1 : insertBaseF step8 { entry := { Key := "8", Value := "bar" }, hash := 12638153115695167463 } 7 = some rz9_pre := rfl
    have f1 : isFull rz9_pre = true := rfl
    show insertF encodeStr (99 + 1) step8 "8" "bar" = some step9
    rw [insertF_step]
    show insertNodeF encodeStr (98 + 1) step8 { entry := { Key := "8", Value := "bar" }, hash := 12638153115695167463 } 7 = some step9
    rw [insertNodeF_step_resize b1 f1]
    show resizeF encodeStr (97 + 1) rz9_pre = some step9
    rw [resizeF_step]
    show reinsertChainsF encodeStr 97 rz9_0
      [[],
      [],
      [],
      [],
      [],
      [],
      [],
      [{ entry := { Key := "8", Value := "bar" }, hash := 12638153115695167463 }],
      [{ entry := { Key := "7", Value := "bar" }, hash := 12638153115695167464 }],
      [{ entry := { Key := "6", Value := "bar" }, hash := 12638153115695167465 }],
      [{ entry := { Key := "5", Value := "bar" }, hash := 12638153115695167466 }],
      [{ entry := { Key := "4", Value := "bar" }, hash := 12638153115695167467 }],
      [{ entry := { Key := "3", Value := "bar" }, hash := 12638153115695167468 }],
      [{ entry := { Key := "2", Value := "bar" }, hash := 12638153115695167469 }],
      [{ entry := { Key := "1", Value := "bar" }, hash := 12638153115695167470 }],
      [{ entry := { Key := "0", Value := "bar" }, hash := 12638153115695167471 }]] = some step9
    have d1 : reinsertChainF encodeStr 96 rz9_0 [] = some rz9_0 := rfl
    rw [reinsertChainsF_cons_step d1]
    have d2 : reinsertChainF encodeStr 95 rz9_0 [] = some rz9_0 := rfl
    rw [reinsertChainsF_cons_step d2]
    have d3 : reinsertChainF encodeStr 94 rz9_0 [] = some rz9_0 := rfl
    rw [reinsertChainsF_cons_step d3]
    have d4 : reinsertChainF encodeStr 93 rz9_0 [] = some rz9_0 := rfl
    rw [reinsertChainsF_cons_step d4]
    have d5 : reinsertChainF encodeStr 92 rz9_0 [] = some rz9_0 := rfl
    rw [reinsertChainsF_cons_step d5]
    have d6 : reinsertChainF encodeStr 91 rz9_0 [] = some rz9_0 := rfl
    rw [reinsertChainsF_cons_step d6]
    have d7 : reinsertChainF encodeStr 90 rz9_0 [] = some rz9_0 := rfl
    rw [reinsertChainsF_cons_step d7]
    have d8 : reinsertChainF encodeStr 89 rz9_0 [{ entry := { Key := "8", Value := "bar" }, hash := 12638153115695167463 }] = some rz9_8 := rfl
    rw [reinsertChainsF_cons_step d8]
    have d9 : reinsertChainF encodeStr 88 rz9_8 [{ entry := { Key := "7", Value := "bar" }, hash := 12638153115695167464 }] = some rz9_9 := rfl
    rw [reinsertChainsF_cons_step d9]
    have d10 : reinsertChainF encodeStr 87 rz9_9 [{ entry := { Key := "6", Value := "bar" }, hash := 12638153115695167465 }] = some rz9_10 := rfl
    rw [reinsertChainsF_cons_step d10]
    have d11 : reinsertChainF encodeStr 86 rz9_10 [{ entry := { Key := "5", Value := "bar" }, hash := 12638153115695167466 }] = some rz9_11 := rfl
    rw [reinsertChainsF_cons_step d11]
    have d12 : reinsertChainF encodeStr 85 rz9_11 [{ entry := { Key := "4", Value := "bar" }, hash := 12638153115695167467 }] = some rz9_12 := rfl
    rw [reinsertChainsF_cons_step d12]
    have d13 : reinsertChainF encodeStr 84 rz9_12 [{ entry := { Key := "3", Value := "bar" }, hash := 12638153115695167468 }] = some rz9_13 := rfl
    rw [reinsertChainsF_cons_step d13]
    have d14 : reinsertChainF encodeStr 83 rz9_13 [{ entry := { Key := "2", Value := "bar" }, hash := 12638153115695167469 }] = some rz9_14 := rfl
    rw [reinsertChainsF_cons_step d14]
    have d15 : reinsertChainF encodeStr 82 rz9_14 [{ entry := { Key := "1", Value := "bar" }, hash := 12638153115695167470 }] = some rz9_15 := rfl
    rw [reinsertChainsF_cons_step d15]
    have d16 : reinsertChainF encodeStr 81 rz9_15 [{ entry := { Key := "0", Value := "bar" }, hash := 12638153115695167471 }] = some step9 := rfl
    rw [reinsertChainsF_cons_step d16]
    exact reinsertChainsF_nil
  have e10 : insertF encodeStr 100 step9 "9" "bar" = some step10 := rfl
  have e11 : insertF encodeStr 100 step10 "10" "bar" = some step11 := rfl
  have e12 : insertF encodeStr 100 step11 "11" "bar" = some step12 := rfl
  have e13 : insertF encodeStr 100 step12 "12" "bar" = some step13 := rfl
  have e14 : insertF encodeStr 100 step13 "13" "bar" = some step14 := rfl
  have e15 : insertF encodeStr 100 step14 "14" "bar" = some step15 := rfl
  have e16 : insertF encodeStr 100 step15 "15" "bar" = some step16 := rfl
  have e17 : insertF encodeStr 100 step16 "16" "bar" = some step17 := by
    have b1 : insertBaseF step16 { entry := { Key := "16", Value := "bar" }, hash := 590700560494856540 } 28 = some rz17_pre := rfl
    have f1 : isFull rz17_pre = true := rfl
    show insertF encodeStr (99 + 1) step16 "16" "bar" = some step17
    rw [insertF_step]
    show insertNodeF encodeStr (98 + 1) step16 { entry := { Key := "16", Value := "bar" }, hash := 590700560494856540 } 28 = some step17
    rw [insertNodeF_step_resize b1 f1]
    show resizeF encodeStr (97 + 1) rz17_pre = some step17
    rw [resizeF_step]
    show reinsertChainsF encodeStr 97 rz17_0
      [[],
      [],
      [],
      [],
      [],
      [],
      [{ entry := { Key := "9", Value := "bar" }, hash := 12638153115695167462 }],
      [{ entry := { Key := "8", Value := "bar" }, hash := 12638153115695167463 }],
      [{ entry := { Key := "7", Value := "bar" }, hash := 12638153115695167464 }],
      [{ entry := { Key := "6", Value := "bar" }, hash := 12638153115695167465 }],
      [{ entry := { Key := "5", Value := "bar" }, hash := 12638153115695167466 }],
      [{ entry := { Key := "4", Value := "bar" }, hash := 12638153115695167467 }],
      [{ entry := { Key := "3", Value := "bar" }, hash := 12638153115695167468 }],
      [{ entry := { Key := "2", Value := "bar" }, hash := 12638153115695167469 }],
      [{ entry := { Key := "1", Value := "bar" }, hash := 12638153115695167470 }],
      [{ entry := { Key := "0", Value := "bar" }, hash := 12638153115695167471 }],
      [],
      [],
      [],
      [],
      [],
      [],
      [],
      [],
      [{ entry := { Key := "12", Value := "bar" }, hash := 590700560494856536 }],
      [{ entry := { Key := "13", Value := "bar" }, hash := 590700560494856537 }],
      [{ entry := { Key := "10", Value := "bar" }, hash := 590700560494856538 }],
      [{ entry := { Key := "11", Value := "bar" }, hash := 590700560494856539 }],
      [{ entry := { Key := "16", Value := "bar" }, hash := 590700560494856540 }],
      [],
      [{ entry := { Key := "14", Value := "bar" }, hash := 590700560494856542 }],
      [{ entry := { Key := "15", Value := "bar" }, hash := 590700560494856543 }]] = some step17
    have d1 : reinsertChainF encodeStr 96 rz17_0 [] = some rz17_0 := rfl
    rw [reinsertChainsF_cons_step d1]
    have d2 : reinsertChainF encodeStr 95 rz17_0 [] = some rz17_0 := rfl
    rw [reinsertChainsF_cons_step d2]
    have d3 : reinsertChainF encodeStr 94 rz17_0 [] = some rz17_0 := rfl
    rw [reinsertChainsF_cons_step d3]
    have d4 : reinsertChainF encodeStr 93 rz17_0 [] = some rz17_0 := rfl
    rw [reinsertChainsF_cons_step d4]
    have d5 : reinsertChainF encodeStr 92 rz17_0 [] = some rz17_0 := rfl
    rw [reinsertChainsF_cons_step d5]
    have d6 : reinsertChainF encodeStr 91 rz17_0 [] = some rz17_0 := rfl
    rw [reinsertChainsF_cons_step d6]
    have d7 : reinsertChainF encodeStr 90 rz17_0 [{ entry := { Key := "9", Value := "bar" }, hash := 12638153115695167462 }] = some rz17_7 := rfl
    rw [reinsertChainsF_cons_step d7]
    have d8 : reinsertChainF encodeStr 89 rz17_7 [{ entry := { Key := "8", Value := "bar" }, hash := 12638153115695167463 }] = some rz17_8 := rfl
    rw [reinsertChainsF_cons_step d8]
    have d9 : reinsertChainF encodeStr 88 rz17_8 [{ entry := { Key := "7", Value := "bar" }, hash := 12638153115695167464 }] = some rz17_9 := rfl
    rw [reinsertChainsF_cons_step d9]
    have d10 : reinsertChainF encodeStr 87 rz17_9 [{ entry := { Key := "6", Value := "bar" }, hash := 12638153115695167465 }] = some rz17_10 := rfl
    rw [reinsertChainsF_cons_step d10]
    have d11 : reinsertChainF encodeStr 86 rz17_10 [{ entry := { Key := "5", Value := "bar" }, hash := 12638153115695167466 }] = some rz17_11 := rfl
    rw [reinsertChainsF_cons_step d11]
    have d12 : reinsertChainF encodeStr 85 rz17_11 [{ entry := { Key := "4", Value := "bar" }, hash := 12638153115695167467 }] = some rz17_12 := rfl
    rw [reinsertChainsF_cons_step d12]
    have d13 : reinsertChainF encodeStr 84 rz17_12 [{ entry := { Key := "3", Value := "bar" }, hash := 12638153115695167468 }] = some rz17_13 := rfl
    rw [reinsertChainsF_cons_step d13]
    have d14 : reinsertChainF encodeStr 83 rz17_13 [{ entry := { Key := "2", Value := "bar" }, hash := 12638153115695167469 }] = some rz17_14 := rfl
    rw [reinsertChainsF_cons_step d14]
    have d15 : reinsertChainF encodeStr 82 rz17_14 [{ entry := { Key := "1", Value := "bar" }, hash := 12638153115695167470 }] = some rz17_15 := rfl
    rw [reinsertChainsF_cons_step d15]
    have d16 : reinsertChainF encodeStr 81 rz17_15 [{ entry := { Key := "0", Value := "bar" }, hash := 12638153115695167471 }] = some rz17_16 := rfl
    rw [reinsertChainsF_cons_step d16]
    have d17 : reinsertChainF encodeStr 80 rz17_16 [] = some rz17_16 := rfl
    rw [reinsertChainsF_cons_step d17]
    have d18 : reinsertChainF encodeStr 79 rz17_16 [] = some rz17_16 := rfl
    rw [reinsertChainsF_cons_step d18]
    have d19 : reinsertChainF encodeStr 78 rz17_16 [] = some rz17_16 := rfl
    rw [reinsertChainsF_cons_step d19]
    have d20 : reinsertChainF encodeStr 77 rz17_16 [] = some rz17_16 := rfl
    rw [reinsertChainsF_cons_step d20]
    have d21 : reinsertChainF encodeStr 76 rz17_16 [] = some rz17_16 := rfl
    rw [reinsertChainsF_cons_step d21]
    have d22 : reinsertChainF encodeStr 75 rz17_16 [] = some rz17_16 := rfl
    rw [reinsertChainsF_cons_step d22]
    have d23 : reinsertChainF encodeStr 74 rz17_16 [] = some rz17_16 := rfl
    rw [reinsertChainsF_cons_step d23]
    have d24 : reinsertChainF encodeStr 73 rz17_16 [] = some rz17_16 := rfl
    rw [reinsertChainsF_cons_step d24]
    have d25 : reinsertChainF encodeStr 72 rz17_16 [{ entry := { Key := "12", Value := "bar" }, hash := 590700560494856536 }] = some rz17_25 := rfl
    rw [reinsertChainsF_cons_step d25]
    have d26 : reinsertChainF encodeStr 71 rz17_25 [{ entry := { Key := "13", Value := "bar" }, hash := 590700560494856537 }] = some rz17_26 := rfl
    rw [reinsertChainsF_cons_step d26]
    have d27 : reinsertChainF encodeStr 70 rz17_26 [{ entry := { Key := "10", Value := "bar" }, hash := 590700560494856538 }] = some rz17_27 := rfl
    rw [reinsertChainsF_cons_step d27]
    have d28 : reinsertChainF encodeStr 69 rz17_27 [{ entry := { Key := "11", Value := "bar" }, hash := 590700560494856539 }] = some rz17_28 := rfl
    rw [reinsertChainsF_cons_step d28]
    have d29 : reinsertChainF encodeStr 68 rz17_28 [{ entry := { Key := "16", Value := "bar" }, hash := 590700560494856540 }] = some rz17_29 := rfl
    rw [reinsertChainsF_cons_step d29]
    have d30 : reinsertChainF encodeStr 67 rz17_29 [] = some rz17_29 := rfl
    rw [reinsertChainsF_cons_step d30]
    have d31 : reinsertChainF encodeStr 66 rz17_29 [{ entry := { Key := "14", Value := "bar" }, hash := 590700560494856542 }] = some rz17_31 := rfl
    rw [reinsertChainsF_cons_step d31]
    have d32 : reinsertChainF encodeStr 65 rz17_31 [{ entry := { Key := "15", Value := "bar" }, hash := 590700560494856543 }] = some step17 := rfl
    rw [reinsertChainsF_cons_step d32]
    exact reinsertChainsF_nil
  have e18 : insertF encodeStr 100 step17 "17" "bar" = some step18 := rfl
  have e19 : insertF encodeStr 100 step18 "18" "bar" = some step19 := rfl
  have e20 : insertF encodeStr 100 step19 "19" "bar" = some step20 := rfl
  simp only [pairs20]
  rw [insertAllF_cons_step e1,
    insertAllF_cons_step e2,
    insertAllF_cons_step e3,
    insertAllF_cons_step e4,
    insertAllF_cons_step e5,
    insertAllF_cons_step e6,
    insertAllF_cons_step e7,
    insertAllF_cons_step e8,
    insertAllF_cons_step e9,
    insertAllF_cons_step e10,
    insertAllF_cons_step e11,
    insertAllF_cons_step e12,
    insertAllF_cons_step e13,
    insertAllF_cons_step e14,
    insertAllF_cons_step e15,
    insertAllF_cons_step e16,
    insertAllF_cons_step e17,
    insertAllF_cons_step e18,
    insertAllF_cons_step e19,
    insertAllF_cons_step e20]
  rfl

/-- C9 counterexample: on a fresh table, `Delete 0` wraps `occupiedBuckets`
to 4294967295 and makes `isFull` hold, but the very next `Insert` leaves the
capacity at 2 — no `Resize` is triggered (a resize would at least double the
capacity), because the insert's own increment wraps the counter back to 0. -/
theorem delete_wrap_no_resize_counterexample :
    tblG.actualBucketSize = 4294967295 ∧ isFull tblG = true ∧
      tblG.actualBucketLength < tblG.actualBucketSize ∧
      insertF encodeNat 20 tblG 1 99 = some tblH ∧
      tblH.actualBucketLength = 2 ∧ tblH.actualBucketSize = 0 :=
  ⟨rfl, rfl, by decide, rfl, rfl, rfl⟩

/-- C9 amended: `Delete` of a key on the fresh table decrements the `uint32`
`occupiedBuckets` from 0, wrapping it to 4294967295; the counter then
exceeds the capacity and `isFull` holds — but the very next `Insert` fills
an empty bucket, wrapping the counter back to 0, so it does not trigger a
`Resize`: the capacity stays 2. -/
theorem delete_underflow_wraps {encode : K → List Nat} {k k' : K} {v : V}
    {t1 t2 : HashTable K V} {fuel : Nat}
    (hdel : deleteF encode (NewHashTable : HashTable K V) k = some t1)
    (hins : insertF encode fuel t1 k' v = some t2) :
    t1.actualBucketSize = 4294967295 ∧ isFull t1 = true ∧
      t1.actualBucketLength < t1.actualBucketSize ∧
      t2.actualBucketLength = 2 ∧ t2.actualBucketSize = 0 := by
  obtain ⟨wf1, hcap1, hsize1, hbsz1, hbuckets1⟩ := deleteF_spec WF_new hdel
  have hcapval : t1.actualBucketLength = 2 := hcap1
  have hbszval : t1.actualBucketSize = 4294967295 := by
    rw [hbsz1]
    show (0 + (2 ^ 32 - 1)) % 2 ^ 32 = 4294967295
    norm_num
  have hsizeval : t1.sizeItems = 0 := hsize1
  have hhs : t1.hasherState = fnvOffset := wf1.hb
  have hfull1 : isFull t1 = true := by
    unfold isFull
    rw [hcapval, hbszval]
    rfl
  have hbk : t1.buckets = List.replicate 2 [] := by
    rw [hbuckets1]
    show ([[], []] : List (List (Node K V))).set (hashOf encode k % 2) [] = [[], []]
    rcases Nat.mod_two_eq_zero_or_one (hashOf encode k) with h | h <;> rw [h] <;> rfl
  have ht1eq : t1 = ⟨2, 4294967295, 0, List.replicate 2 [], fnvOffset⟩ := by
    cases t1 with
    | mk a b c d e =>
      simp only at hcapval hbszval hsizeval hbk hhs
      rw [hcapval, hbszval, hsizeval, hbk, hhs]
  refine ⟨hbszval, hfull1, by rw [hcapval, hbszval]; norm_num, ?_, ?_⟩
  all_goals {
    rw [ht1eq] at hins
    rcases fuel with _ | f
    · have h0 : (none : Option (HashTable K V)) = some t2 := hins
      exact Option.noConfusion h0
    · rcases f with _ | f2
      · have h1 : (none : Option (HashTable K V)) = some t2 := hins
        exact Option.noConfusion h1
      · simp only [insertF, HashF, generateHash, generateIndex] at hins
        have hmodcol : fnvWrite fnvOffset (encode k') % 2 % 2 ^ 32 =
            fnvWrite fnvOffset (encode k') % 2 :=
          Nat.mod_eq_of_lt (lt_of_lt_of_le (Nat.mod_lt _ (by norm_num)) (by norm_num))
        rw [hmodcol] at hins
        rcases Nat.mod_two_eq_zero_or_one (fnvWrite fnvOffset (encode k')) with hm | hm <;>
          rw [hm] at hins
        · have hb : insertBaseF
              (⟨2, 4294967295, 0, List.replicate 2 [], fnvOffset⟩ : HashTable K V)
              { entry := { Key := k', Value := v },
                hash := fnvWrite fnvOffset (encode k') } 0 =
              some (⟨2, (4294967295 + 1) % 2 ^ 32, (0 + 1) % 2 ^ 32,
                (List.replicate 2 ([] : List (Node K V))).set 0
                  [{ entry := { Key := k', Value := v },
                     hash := fnvWrite fnvOffset (encode k') }],
                fnvOffset⟩ : HashTable K V) := rfl
          rw [insertNodeF_step_plain hb rfl] at hins
          simp only [Option.some.injEq] at hins
          rw [← hins]
          all_goals norm_num
        · have hb : insertBaseF
              (⟨2, 4294967295, 0, List.replicate 2 [], fnvOffset⟩ : HashTable K V)
              { entry := { Key := k', Value := v },
                hash := fnvWrite fnvOffset (encode k') } 1 =
              some (⟨2, (4294967295 + 1) % 2 ^ 32, (0 + 1) % 2 ^ 32,
                (List.replicate 2 ([] : List (Node K V))).set 1
                  [{ entry := { Key := k', Value := v },
                     hash := fnvWrite fnvOffset (encode k') }],
                fnvOffset⟩ : HashTable K V) := rfl
          rw [insertNodeF_step_plain hb rfl] at hins
          simp only [Option.some.injEq] at hins
          rw [← hins]
          all_goals norm_num
  }

theorem delete_underflow_wraps_witness :
    tblG.actualBucketSize = 4294967295 ∧ isFull tblG = true ∧
      tblG.actualBucketLength < tblG.actualBucketSize ∧
      tblH.actualBucketLength = 2 ∧ tblH.actualBucketSize = 0 := by
  have hdel : deleteF encodeNat (NewHashTable : HashTable Nat Nat) 0 = some tblG := rfl
  have hins : insertF encodeNat 20 tblG 1 99 = some tblH := rfl
  exact delete_underflow_wraps hdel hins

/-- C10: `Hash` is deterministic and repeatable on every state whose shared
accumulator is in the reset state (as in every reachable state): a second
call returns the same (hash, index) pair, and `Hash` leaves the buckets,
capacity and both counters unchanged, ending with the accumulator reset. -/
theorem hash_deterministic {encode : K → List Nat} {t : HashTable K V} {key : K}
    (hhs : t.hasherState = fnvOffset) :
    (HashF encode t key).1 = (HashF encode (HashF encode t key).2 key).1 ∧
      (HashF encode t key).2.buckets = t.buckets ∧
      (HashF encode t key).2.actualBucketLength = t.actualBucketLength ∧
      (HashF encode t key).2.actualBucketSize = t.actualBucketSize ∧
      (HashF encode t key).2.sizeItems = t.sizeItems ∧
      (HashF encode t key).2.hasherState = fnvOffset := by
  unfold HashF generateHash generateIndex
  rw [hhs]
  exact ⟨rfl, rfl, rfl, rfl, rfl, rfl⟩

theorem hash_deterministic_witness :
    (HashF encodeNat (NewHashTable : HashTable Nat Nat) 3).1 =
      (HashF encodeNat (HashF encodeNat (NewHashTable : HashTable Nat Nat) 3).2 3).1 ∧
    (HashF encodeNat (NewHashTable : HashTable Nat Nat) 3).2.buckets =
      (NewHashTable : HashTable Nat Nat).buckets ∧
    (HashF encodeNat (NewHashTable : HashTable Nat Nat) 3).2.actualBucketLength =
      (NewHashTable : HashTable Nat Nat).actualBucketLength ∧
    (HashF encodeNat (NewHashTable : HashTable Nat Nat) 3).2.actualBucketSize =
      (NewHashTable : HashTable Nat Nat).actualBucketSize ∧
    (HashF encodeNat (NewHashTable : HashTable Nat Nat) 3).2.sizeItems =
      (NewHashTable : HashTable Nat Nat).sizeItems ∧
    (HashF encodeNat (NewHashTable : HashTable Nat Nat) 3).2.hasherState = fnvOffset :=
  hash_deterministic rfl

end GoHashTable
